import Mathlib

/-!
Verification of the HiveQL / Trino → Databricks SQL conversion pipeline
(`scripts/smart_convert_and_validate.py` and `scripts/trino_to_databricks.py`).

The development shallowly embeds the two `process_query` pipelines and their
helpers.  The regular-expression operations used by the source (`re.search`,
`re.sub`, `re.findall` with the `IGNORECASE` / `MULTILINE` / `DOTALL` flags)
are embedded by a small backtracking matcher over `List Char` whose candidate
ordering mirrors Python's leftmost, priority-ordered backtracking semantics:
alternation prefers the left branch, greedy quantifiers prefer longer
consumption, lazy quantifiers shorter, and search returns the leftmost
position with a match.  Every star/plus in the source's patterns ranges over a
single-character class, which the AST below enforces, so the matcher is
structurally recursive.

External collaborators (the EXPLAIN validation oracle and the AI_QUERY
generative endpoint, both reached through `cursor.execute`) are modelled as an
environment of functions indexed by the number of calls made so far; a raised
exception is an `Except.error` carrying `str(e)`.  Python's `set` iteration
order (used by the DISTRIBUTE BY fix) is modelled by an explicit ordering
parameter applied to the distinct elements in first-appearance order.
-/

deriving instance DecidableEq for Except

namespace Py

/-- ASCII word character, Python's `\w` on the source's ASCII corpus. -/
def isWordCh (c : Char) : Bool := c.isAlphanum || c == '_'

/-- Python's `\s` (also the default `str.strip` class): space, tab, newline,
carriage return, vertical tab, form feed. -/
def isSpC (c : Char) : Bool :=
  c == ' ' || c == '\t' || c == '\n' || c == '\r' || c == '\x0b' || c == '\x0c'

/-- `str.upper()` (ASCII). -/
def upperL (s : List Char) : List Char := s.map Char.toUpper

/-- Python `needle in hay` substring test. -/
def containsL (hay needle : List Char) : Bool :=
  match hay with
  | [] => needle.isEmpty
  | _ :: t => needle.isPrefixOf hay || containsL t needle

/-- Python `s.rstrip(c)` for a single strip character. -/
def rstripCh (c : Char) (s : List Char) : List Char :=
  (s.reverse.dropWhile (fun x => x == c)).reverse

/-- Python `s.strip()` (default whitespace). -/
def stripL (s : List Char) : List Char :=
  ((s.dropWhile isSpC).reverse.dropWhile isSpC).reverse

/-- Python `s.replace("'", "''")`. -/
def dupQuotesL (s : List Char) : List Char :=
  s.flatMap (fun c => if c == '\'' then ['\'', '\''] else [c])

/-- Python `','.split` on one character, keeping empty pieces. -/
def splitChAux (sep : Char) (cur : List Char) : List Char → List (List Char)
  | [] => [cur.reverse]
  | c :: t => if c == sep then cur.reverse :: splitChAux sep [] t
              else splitChAux sep (c :: cur) t

def splitCh (sep : Char) (s : List Char) : List (List Char) := splitChAux sep [] s

/-- Distinct elements in first-appearance order (the membership history a
Python `set` receives). -/
def dedupFOAux (seen : List (List Char)) : List (List Char) → List (List Char)
  | [] => seen.reverse
  | x :: t => if seen.contains x then dedupFOAux seen t else dedupFOAux (x :: seen) t

def dedupFO (l : List (List Char)) : List (List Char) := dedupFOAux [] l

/-- `', '.join`. -/
def joinCS : List (List Char) → List Char
  | [] => []
  | [x] => x
  | x :: t => x ++ ',' :: ' ' :: joinCS t

/-- `'\n'.join`. -/
def joinNL : List (List Char) → List Char
  | [] => []
  | [x] => x
  | x :: t => x ++ '\n' :: joinNL t

end Py

namespace Rx

open Py

/-- Regular-expression AST covering the constructs used by the repository's
patterns.  Quantifiers range over single-character classes only (true of every
pattern in the source), which keeps matching structurally recursive. -/
inductive RE where
  | eps
  | cls (p : Char → Bool)
  | seq (a b : RE)
  | alt (a b : RE)
  | starC (p : Char → Bool) (lz : Bool)
  | plusC (p : Char → Bool) (lz : Bool)
  | opt (a : RE) (lz : Bool)
  | grp (i : Nat) (a : RE)
  | bnd
  | bol (multi : Bool)
  | eol (multi : Bool)

/-- Captured groups: newest capture first, `find?` retrieves it. -/
abbrev Groups := List (Nat × List Char)

/-- All ways a single-character class run can consume a prefix: 0, 1, …
characters, ascending, each with the character preceding the remainder. -/
def runSplits (p : Char → Bool) (prev : Option Char) : List Char → List (Option Char × List Char)
  | [] => [(prev, [])]
  | c :: r => (prev, c :: r) :: (if p c then runSplits p (some c) r else [])

def isWordB : Option Char → Bool
  | some c => isWordCh c
  | none => false

def headWord : List Char → Bool
  | c :: _ => isWordCh c
  | [] => false

/-- Python's `$` without `MULTILINE`: end of input, or just before a final
newline. -/
def eolSingle : List Char → Bool
  | [] => true
  | ['\n'] => true
  | _ => false

/-- Backtracking matcher.  `run re prev s g` lists every `(prev', rest, g')`
reachable by matching `re` against a prefix of `s` (with `prev` the character
before `s`), in Python's backtracking priority order. -/
def run : RE → Option Char → List Char → Groups → List (Option Char × List Char × Groups)
  | .eps, p, s, g => [(p, s, g)]
  | .cls q, _, s, g =>
      match s with
      | [] => []
      | c :: r => if q c then [(some c, r, g)] else []
  | .seq a b, p, s, g =>
      (run a p s g).flatMap (fun x => run b x.1 x.2.1 x.2.2)
  | .alt a b, p, s, g => run a p s g ++ run b p s g
  | .starC q lz, p, s, g =>
      let base := (runSplits q p s).map (fun x => (x.1, x.2, g))
      if lz then base else base.reverse
  | .plusC q lz, p, s, g =>
      (match s with
       | [] => []
       | c :: r =>
         if q c then
           let base := (runSplits q (some c) r).map (fun x => (x.1, x.2, g))
           if lz then base else base.reverse
         else [])
  | .opt a lz, p, s, g =>
      if lz then (p, s, g) :: run a p s g else run a p s g ++ [(p, s, g)]
  | .grp i a, p, s, g =>
      (run a p s g).map (fun x => (x.1, x.2.1, (i, s.take (s.length - x.2.1.length)) :: x.2.2))
  | .bnd, p, s, g => if isWordB p != headWord s then [(p, s, g)] else []
  | .bol multi, p, s, g =>
      if p == none || (multi && p == some '\n') then [(p, s, g)] else []
  | .eol multi, p, s, g =>
      if (if multi then s.isEmpty || s.headD ' ' == '\n' else eolSingle s)
      then [(p, s, g)] else []

/-- Leftmost match (`re.search` from a given left context): skipped prefix,
matched text, remainder, groups. -/
def searchFrom (re : RE) : Option Char → List Char → Option (List Char × List Char × List Char × Groups)
  | prev, [] =>
    (match run re prev [] [] with
     | x :: _ => some ([], [], x.2.1, x.2.2)
     | [] => none)
  | prev, c :: r =>
    match run re prev (c :: r) [] with
    | x :: _ => some ([], (c :: r).take ((c :: r).length - x.2.1.length), x.2.1, x.2.2)
    | [] => (searchFrom re (some c) r).map (fun y => (c :: y.1, y.2))

/-- `re.search` succeeds. -/
def hasMatch (re : RE) (s : List Char) : Bool := (searchFrom re none s).isSome

/-- Group value in a replacement; an unmatched group substitutes empty text
(Python ≥ 3.5 `re.sub` semantics). -/
def gval (g : Groups) (i : Nat) : List Char :=
  match g.find? (fun x => x.1 == i) with
  | some x => x.2
  | none => []

/-- Global substitution, `re.sub`: replace every non-overlapping leftmost
match, scanning on in the original text after each match (the character
before the remainder is the last matched character). -/
def gsubAux (re : RE) (tmpl : Groups → List Char → List Char) (prev : Option Char)
    (s : List Char) : Nat → List Char
  | 0 => s
  | fuel + 1 =>
    match searchFrom re prev s with
    | none => s
    | some (pre, mat, rest, g) =>
      match mat with
      | [] =>
        (match rest with
         | [] => pre ++ tmpl g []
         | c :: r => pre ++ tmpl g [] ++ c :: gsubAux re tmpl (some c) r fuel)
      | _ => pre ++ tmpl g mat ++ gsubAux re tmpl mat.getLast? rest fuel

def gsub (re : RE) (tmpl : Groups → List Char → List Char) (s : List Char) : List Char :=
  gsubAux re tmpl none s (s.length + 1)

/-- Number of non-overlapping matches, `len(re.findall(...))`. -/
def countMAux (re : RE) (prev : Option Char) (s : List Char) : Nat → Nat
  | 0 => 0
  | fuel + 1 =>
    match searchFrom re prev s with
    | none => 0
    | some (_, mat, rest, _) =>
      match mat with
      | [] =>
        (match rest with
         | [] => 1
         | c :: r => 1 + countMAux re (some c) r fuel)
      | _ => 1 + countMAux re mat.getLast? rest fuel

def countM (re : RE) (s : List Char) : Nat := countMAux re none s (s.length + 1)

/-- Case-insensitive literal (the `IGNORECASE` flag on literal pattern text). -/
def litCI (s : String) : RE :=
  (s.data.map (fun c => RE.cls (fun x => x.toLower == c.toLower))).foldr RE.seq RE.eps

/-- Case-sensitive literal. -/
def litCS (s : String) : RE :=
  (s.data.map (fun c => RE.cls (fun x => x == c))).foldr RE.seq RE.eps

def cseq (l : List RE) : RE := l.foldr RE.seq RE.eps

def altN : List RE → RE
  | [] => .eps
  | [x] => x
  | x :: t => .alt x (altN t)

/-- `\s*` -/
def ws0 : RE := .starC isSpC false
/-- `\s+` -/
def ws1 : RE := .plusC isSpC false
/-- `\d+` -/
def d1 : RE := .plusC Char.isDigit false
/-- `\w+` -/
def w1 : RE := .plusC isWordCh false
/-- `[^c]` as a class -/
def notCh (c : Char) : Char → Bool := fun x => x != c
/-- `.` under DOTALL -/
def anyCh : Char → Bool := fun _ => true

/-- String-level wrappers. -/
def subS (re : RE) (tmpl : Groups → List Char → List Char) (s : String) : String :=
  ⟨gsub re tmpl s.data⟩

def hasS (re : RE) (s : String) : Bool := hasMatch re s.data

end Rx

namespace Py

/-- Decimal digit, value `m % 10` rendered as Python renders it. -/
def digCh : Nat → Char
  | 0 => '0' | 1 => '1' | 2 => '2' | 3 => '3' | 4 => '4'
  | 5 => '5' | 6 => '6' | 7 => '7' | 8 => '8' | 9 => '9'
  | _ => '?'

def digVal (c : Char) : Nat := c.toNat - 48

/-- Digits of `n`, least significant first, fuel-driven so it reduces in the
kernel. -/
def natDigsRevGo : Nat → Nat → List Char
  | 0, _ => []
  | fuel + 1, n => if n < 10 then [digCh n] else digCh (n % 10) :: natDigsRevGo fuel (n / 10)

/-- Python `str(n)` for a natural number. -/
def natStr (n : Nat) : List Char := (natDigsRevGo (n + 1) n).reverse

/-- Python `str(n)` for an integer. -/
def pyIntStr (n : Int) : List Char :=
  if n < 0 then '-' :: natStr n.natAbs else natStr n.toNat

/-- Value of a digit string, as Python `int` reads `\d+`. -/
def digitsVal (s : List Char) : Nat := s.foldl (fun a c => a * 10 + digVal c) 0

/-- Python `int(s)` on a string matched by `-?\d+`. -/
def pyIntOfLit (s : List Char) : Int :=
  match s with
  | '-' :: t => -(digitsVal t : Int)
  | _ => (digitsVal s : Int)

def natStrS (n : Nat) : String := ⟨natStr n⟩

end Py

def takeS (n : Nat) (s : String) : String := ⟨s.data.take n⟩

def upperS (s : String) : String := ⟨Py.upperL s.data⟩

def containsS (hay needle : String) : Bool := Py.containsL hay.data needle.data

def stripS (s : String) : String := ⟨Py.stripL s.data⟩

def rstripSemi (s : String) : String := ⟨Py.rstripCh ';' s.data⟩

/-- Python `s.startswith(pre)`. -/
def startsWithS (s pre : String) : Bool := pre.data.isPrefixOf s.data

namespace Hql

open Py Rx

/-! Patterns of `scripts/smart_convert_and_validate.py`, in source order. -/

/-- `^SET\s+[^\n]+;?\s*$` with MULTILINE and IGNORECASE (lines 113 and 324). -/
def pSet : RE := cseq [.bol true, litCI "SET", ws1, .plusC (notCh '\n') false,
  .opt (litCS ";") false, ws0, .eol true]

/-- `\n\n\n+` (lines 115 and 329). -/
def pBlank3 : RE := cseq [litCS "\n\n", .plusC (fun c => c == '\n') false]

/-- `PARTITIONED BY \([^)]+\)\s*\n`, IGNORECASE (line 334). -/
def pPart : RE := cseq [litCI "PARTITIONED BY (", .plusC (notCh ')') false,
  litCS ")", ws0, litCS "\n"]

/-- `CLUSTERED BY \([^)]+\)(?:\s+SORTED BY \([^)]+\))?\s+INTO \d+ BUCKETS\s*\n`,
no flags, hence case sensitive (line 341). -/
def pClusteredCS : RE := cseq [litCS "CLUSTERED BY (", .plusC (notCh ')') false, litCS ")",
  .opt (cseq [ws1, litCS "SORTED BY (", .plusC (notCh ')') false, litCS ")"]) false,
  ws1, litCS "INTO ", d1, litCS " BUCKETS", ws0, litCS "\n"]

/-- `(ON\s+[^\s]+\s*=\s*[^\s]+)\s*/\*\+[^*]+\*/(\s*)`, IGNORECASE (line 348). -/
def pOnHint : RE := cseq [.grp 1 (cseq [litCI "ON", ws1, .plusC (fun c => !isSpC c) false,
  ws0, litCS "=", ws0, .plusC (fun c => !isSpC c) false]),
  ws0, litCS "/*+", .plusC (notCh '*') false, litCS "*/", .grp 2 ws0]

/-- `(FROM\s+\w+\s+)(\w+)\s+TABLESAMPLE\s*\([^)]+\)\s+\w+(\s*\n)`, IGNORECASE
(line 355). -/
def pTabsample : RE := cseq [.grp 1 (cseq [litCI "FROM", ws1, w1, ws1]), .grp 2 w1,
  ws1, litCI "TABLESAMPLE", ws0, litCS "(", .plusC (notCh ')') false, litCS ")",
  ws1, w1, .grp 3 (cseq [ws0, litCS "\n"])]

/-- `/\*\+\s*STREAMTABLE\s*\([^)]+\)\s*\*/`, IGNORECASE (line 364). -/
def pStream : RE := cseq [litCS "/*+", ws0, litCI "STREAMTABLE", ws0, litCS "(",
  .plusC (notCh ')') false, litCS ")", ws0, litCS "*/"]

/-- Character class `[\w,\s]`. -/
def wcs (c : Char) : Bool := isWordCh c || c == ',' || isSpC c

/-- `DISTRIBUTE\s+BY\s+([\w,\s]+?)(?:\s+SORT\s+BY\s+([\w,\s]+?))?(?:;|\s*$)`,
IGNORECASE, no MULTILINE so `$` is end-of-string (line 372). -/
def pDist : RE := cseq [litCI "DISTRIBUTE", ws1, litCI "BY", ws1, .grp 1 (.plusC wcs true),
  .opt (cseq [ws1, litCI "SORT", ws1, litCI "BY", ws1, .grp 2 (.plusC wcs true)]) false,
  .alt (litCS ";") (cseq [ws0, .eol false])]

/-- `(CREATE TABLE \w+)((?:\s+USING \w+)?(?:\s+OPTIONS \([^)]+\))?)\s+(AS)(?:\s+)(SELECT)`,
IGNORECASE and DOTALL (line 386). -/
def pCreate : RE := cseq [.grp 1 (cseq [litCI "CREATE TABLE ", w1]),
  .grp 2 (cseq [.opt (cseq [ws1, litCI "USING ", w1]) false,
    .opt (cseq [ws1, litCI "OPTIONS (", .plusC (notCh ')') false, litCS ")"]) false]),
  ws1, .grp 3 (litCI "AS"), ws1, .grp 4 (litCI "SELECT")]

/-- `USING\s+(PARQUET|ORC)`, IGNORECASE (line 395). -/
def pUsingPO : RE := cseq [litCI "USING", ws1, .grp 1 (.alt (litCI "PARQUET") (litCI "ORC"))]

/-- `STORED\s+AS\s+(ORC|PARQUET)`, IGNORECASE (line 401). -/
def pStoredAs : RE := cseq [litCI "STORED", ws1, litCI "AS", ws1,
  .grp 1 (.alt (litCI "ORC") (litCI "PARQUET"))]

/-- `TBLPROPERTIES\s*\(([^)]+)\)`, IGNORECASE (line 407). -/
def pTblprops : RE := cseq [litCI "TBLPROPERTIES", ws0, litCS "(",
  .grp 1 (.plusC (notCh ')') false), litCS ")"]

/-- `MAP\s*\([^)]*?FIRST_VALUE[^)]*?OVER[^)]+?\)[^)]*?\)`, IGNORECASE and
DOTALL (line 416). -/
def pMapWinSearch : RE := cseq [litCI "MAP", ws0, litCS "(", .starC (notCh ')') true,
  litCI "FIRST_VALUE", .starC (notCh ')') true, litCI "OVER", .plusC (notCh ')') true,
  litCS ")", .starC (notCh ')') true, litCS ")"]

/-- `(,\s*MAP\s*\([^)]*?FIRST_VALUE.*?OVER.*?\).*?\)\s+as\s+\w+)`, IGNORECASE
and DOTALL (line 420). -/
def pMapWinSub : RE := .grp 1 (cseq [litCS ",", ws0, litCI "MAP", ws0, litCS "(",
  .starC (notCh ')') true, litCI "FIRST_VALUE", .starC anyCh true, litCI "OVER",
  .starC anyCh true, litCS ")", .starC anyCh true, litCS ")", ws1, litCI "as", ws1, w1])

/-- `\bAS\s+(SELECT\b.*)`, IGNORECASE and DOTALL (lines 198 and 296). -/
def pAsSelect : RE := cseq [.bnd, litCI "AS", ws1,
  .grp 1 (cseq [litCI "SELECT", .bnd, .starC anyCh false])]

/-- `CREATE\s+TABLE.*AS\s+SELECT`, IGNORECASE and DOTALL (line 158). -/
def pCtasCI : RE := cseq [litCI "CREATE", ws1, litCI "TABLE", .starC anyCh false,
  litCI "AS", ws1, litCI "SELECT"]

/-- `CLUSTERED BY \([^)]+\) INTO \d+ BUCKETS`, IGNORECASE (line 161). -/
def pClusteredCI : RE := cseq [litCI "CLUSTERED BY (", .plusC (notCh ')') false,
  litCI ") INTO ", d1, litCI " BUCKETS"]

/-- `^```sql\s*` with MULTILINE (lines 279 and 362). -/
def pFenceOpen : RE := cseq [.bol true, litCS "```sql", ws0]

/-- ```` ```\s*$ ```` with MULTILINE (lines 280 and 363). -/
def pFenceClose : RE := cseq [litCS "```", ws0, .eol true]

/-- `has_clustered_by_in_ctas` (lines 155-163). -/
def has_clustered_by_in_ctas (query : String) : Bool :=
  hasS pCtasCI query && hasS pClusteredCI query

/-- The UDF short-circuit condition of `try_original_query` (line 182). -/
def is_udf_stmt (query table_name : String) : Bool :=
  table_name == "UDF_Definitions" || containsS (upperS query) "CREATE FUNCTION" ||
  containsS (upperS query) "CREATE OR REPLACE FUNCTION"

/-- The create-as-select substring test used before the `\bAS\s+SELECT`
extraction (lines 197, 278, 295 and 382). -/
def hasAsSel (query : String) : Bool :=
  containsS (upperS query) "AS SELECT" || containsS (upperS query) "AS\nSELECT"

/-- Whether the EXPLAIN branches of a validation attempt submit anything at
all for this text: they do unless the substring test passes while the
`\bAS\s+SELECT` regex finds no match (in which case the attempt silently
does nothing). -/
def vSubmits (query : String) : Bool :=
  !hasAsSel query || (searchFrom pAsSelect none query.data).isSome

/-- A HiveQL validation attempt reaches `cursor.execute`: no UDF
short-circuit, no CLUSTERED-BY-in-CTAS short-circuit, and the extraction edge
does not fire. -/
def submits (query table_name : String) : Bool :=
  !is_udf_stmt query table_name && !has_clustered_by_in_ctas query && vSubmits query

/-- The sanitisation of a generative response (lines 279-281 and 362-364):
strip a leading code fence, a trailing code fence, then surrounding
whitespace. -/
def sanitize (s : String) : String :=
  stripS (subS pFenceClose (fun _ _ => []) (subS pFenceOpen (fun _ _ => []) s))

/-- Fixes 0 through 4 of `apply_auto_fixes` (lines 320-367): SET removal,
PARTITIONED BY, CLUSTERED BY, JOIN hints, TABLESAMPLE, STREAMTABLE.  None of
these consults the `set` iteration order. -/
def auto_fixes_pre (sql : String) : String × List String :=
  let f := sql
  let fixes : List String := []
  -- Fix 0: remove Hive SET commands
  let nSet := countM pSet f.data
  let (f, fixes) :=
    if nSet > 0 then
      (subS pBlank3 (fun _ _ => "\n\n".data) (subS pSet (fun _ _ => []) f),
       fixes ++ ["Removed " ++ natStrS nSet ++ " SET command(s) (Hive/MapReduce config not needed in Databricks)"])
    else (f, fixes)
  -- Fix 1: remove PARTITIONED BY from CTAS
  let (f, fixes) :=
    if hasS pPart f then
      (subS pPart (fun _ _ => []) f,
       fixes ++ ["Removed PARTITIONED BY from CTAS (use ALTER TABLE to add partitioning after creation)"])
    else (f, fixes)
  -- Fix 2: remove CLUSTERED BY from CTAS (case-sensitive search and sub)
  let (f, fixes) :=
    if hasS pClusteredCS f then
      (subS pClusteredCS (fun _ _ => []) f,
       fixes ++ ["Removed CLUSTERED BY (with optional SORTED BY) from CTAS"])
    else (f, fixes)
  -- Fix 2 (second): remove Hive hints after a JOIN ON clause
  let (f, fixes) :=
    if hasS pOnHint f then
      (subS pOnHint (fun g _ => gval g 1 ++ gval g 2) f,
       fixes ++ ["Removed Hive hints from JOIN ON clause"])
    else (f, fixes)
  -- Fix 3: remove TABLESAMPLE, keep the main table alias
  let (f, fixes) :=
    if hasS pTabsample f then
      (subS pTabsample (fun g _ => gval g 1 ++ gval g 2 ++ gval g 3) f,
       fixes ++ ["Removed TABLESAMPLE clause, kept main table alias"])
    else (f, fixes)
  -- Fix 4: remove STREAMTABLE hint
  let (f, fixes) :=
    if hasS pStream f then
      (subS pStream (fun _ _ => []) f, fixes ++ ["Removed STREAMTABLE hint"])
    else (f, fixes)
  (f, fixes)

/-- Fix 5 of `apply_auto_fixes` (lines 369-392): DISTRIBUTE BY / SORT BY →
CLUSTER BY in the table definition.  `ord` models the iteration order of the
Python `set` built at line 377: it receives the distinct stripped column
names in first-appearance order and yields the order the running process
happens to iterate them in. -/
def auto_fixes_dist (ord : List String → List String) (st : String × List String) :
    String × List String :=
  let (f, fixes) := st
  let (f, fixes) :=
    match searchFrom pDist none f.data with
    | some (_, _, _, g) =>
      let dist_cols := stripL (gval g 1)
      let cluster_cols : String :=
        ⟨joinCS ((ord ((dedupFO ((splitCh ',' dist_cols).map stripL)).map
          (fun l => (⟨l⟩ : String)))).map String.data)⟩
      let f := subS pDist (fun _ _ => ";".data) f
      if containsL (upperL f.data) "CREATE TABLE".data && containsL (upperL f.data) "AS".data then
        if hasS pCreate f then
          (subS pCreate (fun g2 _ => gval g2 1 ++ gval g2 2 ++ "\nCLUSTER BY (".data ++
             cluster_cols.data ++ ")\n".data ++ gval g2 3 ++ "\n".data ++ gval g2 4) f,
           fixes ++ ["Moved DISTRIBUTE BY to CLUSTER BY (" ++ cluster_cols ++ ") in table definition"])
        else (f, fixes)
      else
        (f, fixes ++ ["Removed DISTRIBUTE BY / SORT BY (Catalyst optimizer handles distribution)"])
    | none => (f, fixes)
  (f, fixes)

/-- Fixes 6 and 7 of `apply_auto_fixes` (lines 394-427): storage formats,
TBLPROPERTIES, and the MAP-with-window neutralisation. -/
def auto_fixes_post (st : String × List String) : String × List String :=
  let (f, fixes) := st
  -- Fix 6: USING PARQUET/ORC → USING ICEBERG
  let (f, fixes) :=
    if hasS pUsingPO f then
      (subS pUsingPO (fun _ _ => "USING ICEBERG".data) f,
       fixes ++ ["Changed USING PARQUET/ORC to USING ICEBERG (managed Iceberg tables)"])
    else (f, fixes)
  -- STORED AS ORC/PARQUET → USING ICEBERG
  let (f, fixes) :=
    if hasS pStoredAs f then
      (subS pStoredAs (fun _ _ => "USING ICEBERG".data) f,
       fixes ++ ["Changed STORED AS ORC/PARQUET to USING ICEBERG"])
    else (f, fixes)
  -- TBLPROPERTIES → OPTIONS
  let (f, fixes) :=
    if hasS pTblprops f then
      (subS pTblprops (fun g _ => "OPTIONS (".data ++ gval g 1 ++ ")".data) f,
       fixes ++ ["Changed TBLPROPERTIES to OPTIONS"])
    else (f, fixes)
  -- Fix 7: comment out MAP with window functions inside an aggregation query
  let (f, fixes) :=
    if containsL (upperL f.data) "GROUP BY".data && containsL (upperL f.data) "OVER (".data then
      if hasS pMapWinSearch f then
        (subS pMapWinSub (fun g _ =>
           "-- TODO: Fix mixed aggregate/window function\n    -- ".data ++ gval g 1) f,
         fixes ++ ["Commented out invalid MAP with window functions (mixed aggregate/window not allowed)"])
      else (f, fixes)
    else (f, fixes)
  (f, fixes)

/-- `apply_auto_fixes` (lines 314-427), the composition of the three stages
above in source order. -/
def apply_auto_fixes (ord : List String → List String) (sql : String) :
    String × List String :=
  auto_fixes_post (auto_fixes_dist ord (auto_fixes_pre sql))

end Hql

namespace Tri

open Py Rx

/-! Patterns of `scripts/trino_to_databricks.py`, in source order.  All are
compiled with IGNORECASE. -/

/-- `\bVARCHAR(?:\(\d+\))?\b` (line 126). -/
def pVarchar : RE := cseq [.bnd, litCI "VARCHAR",
  .opt (cseq [litCS "(", d1, litCS ")"]) false, .bnd]

/-- `\bVARBINARY\b` (line 131). -/
def pVarbinary : RE := cseq [.bnd, litCI "VARBINARY", .bnd]

/-- `\bcardinality\s*\(` (line 136). -/
def pCard : RE := cseq [.bnd, litCI "cardinality", ws0, litCS "("]

/-- `\bjson_extract_scalar\s*\(` (line 141). -/
def pJes : RE := cseq [.bnd, litCI "json_extract_scalar", ws0, litCS "("]

/-- `\barray_agg\s*\(\s*DISTINCT\s+` (line 146). -/
def pAggD : RE := cseq [.bnd, litCI "array_agg", ws0, litCS "(", ws0, litCI "DISTINCT", ws1]

/-- `\barray_agg\s*\(` (line 151). -/
def pAgg : RE := cseq [.bnd, litCI "array_agg", ws0, litCS "("]

/-- `\bapprox_percentile\s*\(` (line 156). -/
def pApprox : RE := cseq [.bnd, litCI "approx_percentile", ws0, litCS "("]

/-- `\barbitrary\s*\(` (line 161). -/
def pArb : RE := cseq [.bnd, litCI "arbitrary", ws0, litCS "("]

/-- `date_add\s*\(\s*'day'\s*,\s*(-?\d+)\s*,\s*([^)]+)\)` (line 176). -/
def pDayAdd : RE := cseq [litCI "date_add", ws0, litCS "(", ws0, litCS "'", litCI "day",
  litCS "'", ws0, litCS ",", ws0, .grp 1 (cseq [.opt (litCS "-") false, d1]),
  ws0, litCS ",", ws0, .grp 2 (.plusC (notCh ')') false), litCS ")"]

/-- `date_add\s*\(\s*'month'\s*,\s*(-?\d+)\s*,\s*([^)]+)\)` (line 182). -/
def pMonthAdd : RE := cseq [litCI "date_add", ws0, litCS "(", ws0, litCS "'", litCI "month",
  litCS "'", ws0, litCS ",", ws0, .grp 1 (cseq [.opt (litCS "-") false, d1]),
  ws0, litCS ",", ws0, .grp 2 (.plusC (notCh ')') false), litCS ")"]

/-- `date_add\s*\(\s*'year'\s*,\s*(-?\d+)\s*,\s*([^)]+)\)` (line 188). -/
def pYearAdd : RE := cseq [litCI "date_add", ws0, litCS "(", ws0, litCS "'", litCI "year",
  litCS "'", ws0, litCS ",", ws0, .grp 1 (cseq [.opt (litCS "-") false, d1]),
  ws0, litCS ",", ws0, .grp 2 (.plusC (notCh ')') false), litCS ")"]

/-- `date_diff\s*\(\s*'day'\s*,\s*([^,]+),\s*([^)]+)\)` (line 202). -/
def pDateDiff : RE := cseq [litCI "date_diff", ws0, litCS "(", ws0, litCS "'", litCI "day",
  litCS "'", ws0, litCS ",", ws0, .grp 1 (.plusC (notCh ',') false), litCS ",", ws0,
  .grp 2 (.plusC (notCh ')') false), litCS ")"]

/-- `CROSS\s+JOIN\s+UNNEST\s*\(\s*([^)]+)\s*\)\s+(?:AS\s+)?(\w+)\s*\(\s*(\w+)\s*\)`
(line 212). -/
def pUnnest : RE := cseq [litCI "CROSS", ws1, litCI "JOIN", ws1, litCI "UNNEST", ws0,
  litCS "(", ws0, .grp 1 (.plusC (notCh ')') false), ws0, litCS ")", ws1,
  .opt (cseq [litCI "AS", ws1]) false, .grp 2 w1, ws0, litCS "(", ws0, .grp 3 w1,
  ws0, litCS ")"]

/-- `\bROW\s*\(` (line 223). -/
def pRow : RE := cseq [.bnd, litCI "ROW", ws0, litCS "("]

/-- `CAST\s*\(([^)]+)\s+AS\s+JSON\)` (line 228). -/
def pCastJson : RE := cseq [litCI "CAST", ws0, litCS "(", .grp 1 (.plusC (notCh ')') false),
  ws1, litCI "AS", ws1, litCI "JSON", litCS ")"]

/-- `INTERVAL\s+'(\d+)'\s+(DAY|HOUR|MINUTE|SECOND|MONTH|YEAR)` (line 234). -/
def pInterval : RE := cseq [litCI "INTERVAL", ws1, litCS "'", .grp 1 d1, litCS "'", ws1,
  .grp 2 (altN [litCI "DAY", litCI "HOUR", litCI "MINUTE", litCI "SECOND",
    litCI "MONTH", litCI "YEAR"])]

/-- `CAST\s*\(\s*json_extract\s*\([^)]+\)\s+AS\s+ARRAY` (line 242). -/
def pJeCast : RE := cseq [litCI "CAST", ws0, litCS "(", ws0, litCI "json_extract", ws0,
  litCS "(", .plusC (notCh ')') false, litCS ")", ws1, litCI "AS", ws1, litCI "ARRAY"]

/-- `WITH\s*\(\s*format\s*=\s*'(PARQUET|ORC|AVRO)'\s*\)` (line 247). -/
def pWithFormat : RE := cseq [litCI "WITH", ws0, litCS "(", ws0, litCI "format", ws0,
  litCS "=", ws0, litCS "'", .grp 1 (altN [litCI "PARQUET", litCI "ORC", litCI "AVRO"]),
  litCS "'", ws0, litCS ")"]

/-- The `year_to_months` replacement callback (lines 191-195): parse the
captured year count with Python `int`, multiply by 12 in exact integer
arithmetic, and render `add_months(expr, months)`. -/
def year_to_months (g1 g2 : List Char) : List Char :=
  let years : Int := pyIntOfLit g1
  let months : Int := years * 12
  "add_months(".data ++ g2 ++ ", ".data ++ pyIntStr months ++ ")".data

/-- The rewrite of Fix 1 (line 127): every standalone VARCHAR token, with its
length argument when the boundary after the closing parenthesis holds, becomes
STRING. -/
def varchar_rewrite (sql : String) : String := subS pVarchar (fun _ _ => "STRING".data) sql

/-- The rewrite of Fix 3 (line 137): `cardinality(` → `size(`. -/
def cardinality_rewrite (sql : String) : String := subS pCard (fun _ _ => "size(".data) sql

/-- The rewrite of the day branch of Fix 10 (line 178):
`date_add('day', n, d)` → `date_add(d, n)`. -/
def day_add_rewrite (sql : String) : String :=
  subS pDayAdd (fun g _ => "date_add(".data ++ gval g 2 ++ ", ".data ++ gval g 1 ++ ")".data) sql

/-- The rewrite of the year branch of Fix 10 (line 196):
`date_add('year', n, d)` → `add_months(d, n*12)` via `year_to_months`. -/
def year_add_rewrite (sql : String) : String :=
  subS pYearAdd (fun g _ => year_to_months (gval g 1) (gval g 2)) sql

/-- `apply_trino_to_databricks_fixes` (lines 117-253). -/
def apply_trino_to_databricks_fixes (sql : String) : String × List String :=
  let f := sql
  let fixes : List String := []
  -- Fix 1: VARCHAR/VARCHAR(n) → STRING
  let (f, fixes) :=
    if hasS pVarchar f then
      (varchar_rewrite f, fixes ++ ["Converted VARCHAR to STRING"])
    else (f, fixes)
  -- Fix 2: VARBINARY → BINARY
  let (f, fixes) :=
    if hasS pVarbinary f then
      (subS pVarbinary (fun _ _ => "BINARY".data) f, fixes ++ ["Converted VARBINARY to BINARY"])
    else (f, fixes)
  -- Fix 3: cardinality( → size(
  let (f, fixes) :=
    if hasS pCard f then
      (cardinality_rewrite f, fixes ++ ["Converted cardinality() to size()"])
    else (f, fixes)
  -- Fix 4: json_extract_scalar( → get_json_object(
  let (f, fixes) :=
    if hasS pJes f then
      (subS pJes (fun _ _ => "get_json_object(".data) f,
       fixes ++ ["Converted json_extract_scalar() to get_json_object()"])
    else (f, fixes)
  -- Fix 5: array_agg(DISTINCT → collect_set(
  let (f, fixes) :=
    if hasS pAggD f then
      (subS pAggD (fun _ _ => "collect_set(".data) f,
       fixes ++ ["Converted array_agg(DISTINCT) to collect_set()"])
    else (f, fixes)
  -- Fix 6: array_agg( → collect_list(
  let (f, fixes) :=
    if hasS pAgg f then
      (subS pAgg (fun _ _ => "collect_list(".data) f,
       fixes ++ ["Converted array_agg() to collect_list()"])
    else (f, fixes)
  -- Fix 7: approx_percentile( → percentile_approx(
  let (f, fixes) :=
    if hasS pApprox f then
      (subS pApprox (fun _ _ => "percentile_approx(".data) f,
       fixes ++ ["Converted approx_percentile() to percentile_approx()"])
    else (f, fixes)
  -- Fix 8: arbitrary( → first(
  let (f, fixes) :=
    if hasS pArb f then
      (subS pArb (fun _ _ => "first(".data) f, fixes ++ ["Converted arbitrary() to first()"])
    else (f, fixes)
  -- Fix 10 (days): date_add('day', n, d) → date_add(d, n)
  let (f, fixes) :=
    if hasS pDayAdd f then
      (day_add_rewrite f,
       fixes ++ ["Converted date_add('day', n, date) to date_add(date, n)"])
    else (f, fixes)
  -- Fix 10 (months): date_add('month', n, d) → add_months(d, n)
  let (f, fixes) :=
    if hasS pMonthAdd f then
      (subS pMonthAdd (fun g _ => "add_months(".data ++ gval g 2 ++ ", ".data ++ gval g 1 ++ ")".data) f,
       fixes ++ ["Converted date_add('month', n, date) to add_months(date, n)"])
    else (f, fixes)
  -- Fix 10 (years): date_add('year', n, d) → add_months(d, n*12)
  let (f, fixes) :=
    if hasS pYearAdd f then
      (year_add_rewrite f,
       fixes ++ ["Converted date_add('year', n, date) to add_months(date, n*12)"])
    else (f, fixes)
  -- Fix 11: date_diff('day', d1, d2) → datediff(d2, d1)
  let (f, fixes) :=
    if hasS pDateDiff f then
      (subS pDateDiff (fun g _ => "datediff(".data ++ gval g 2 ++ ", ".data ++ gval g 1 ++ ")".data) f,
       fixes ++ ["Converted date_diff('day', start, end) to datediff(end, start)"])
    else (f, fixes)
  -- Fix 12: CROSS JOIN UNNEST → LATERAL VIEW explode
  let (f, fixes) :=
    if hasS pUnnest f then
      (subS pUnnest (fun g _ => "LATERAL VIEW explode(".data ++ gval g 1 ++ ") ".data ++
         gval g 2 ++ " AS ".data ++ gval g 3) f,
       fixes ++ ["Converted CROSS JOIN UNNEST() to LATERAL VIEW explode()"])
    else (f, fixes)
  -- Fix 13: ROW( → STRUCT(
  let (f, fixes) :=
    if hasS pRow f then
      (subS pRow (fun _ _ => "STRUCT(".data) f, fixes ++ ["Converted ROW() to STRUCT()"])
    else (f, fixes)
  -- Fix 14: CAST(x AS JSON) → to_json(x)
  let (f, fixes) :=
    if hasS pCastJson f then
      (subS pCastJson (fun g _ => "to_json(".data ++ gval g 1 ++ ")".data) f,
       fixes ++ ["Converted CAST(x AS JSON) to to_json(x)"])
    else (f, fixes)
  -- Fix 15: INTERVAL 'n' UNIT → INTERVAL n UNIT
  let (f, fixes) :=
    if hasS pInterval f then
      (subS pInterval (fun g _ => "INTERVAL ".data ++ gval g 1 ++ " ".data ++ gval g 2) f,
       fixes ++ ["Converted INTERVAL 'n' UNIT to INTERVAL n UNIT"])
    else (f, fixes)
  -- Fix 17: json_extract with CAST — note only, no rewrite
  let (f, fixes) :=
    if hasS pJeCast f then
      (f, fixes ++ ["TODO: Review json_extract() with CAST - may need from_json() with schema"])
    else (f, fixes)
  -- Fix 18: WITH (format = 'X') → USING ICEBERG
  let (f, fixes) :=
    match searchFrom pWithFormat none f.data with
    | some (_, _, _, g) =>
      (subS pWithFormat (fun _ _ => "USING ICEBERG".data) f,
       fixes ++ ["Converted WITH (format = '" ++ (⟨gval g 1⟩ : String) ++ "') to USING ICEBERG"])
    | none => (f, fixes)
  (f, fixes)

end Tri

/-- One external call made while processing a translation unit: an EXPLAIN
validation attempt (a cursor block submitting the given query text), or an
AI_QUERY invocation with the given SQL text. -/
inductive Ev where
  | oracle (q : String)
  | ai (q : String)
deriving DecidableEq

/-- Behaviour of the two external collaborators.  Each is indexed by the
number of calls of that kind already made for the current unit, so any
time-varying behaviour is expressible.  `Except.error msg` models a raised
exception whose `str` is `msg`; oracle success carries the fetched rows
(`str(row[0])` per row), AI success carries `fetchone`'s first column
(`none` for a missing/NULL result). -/
structure Env where
  oracle : Nat → String → Except String (List String)
  ai : Nat → String → Except String (Option String)

def countOr (l : List Ev) : Nat :=
  l.countP (fun e => match e with | .oracle _ => true | .ai _ => false)

def countAi (l : List Ev) : Nat :=
  l.countP (fun e => match e with | .oracle _ => false | .ai _ => true)

/-- The texts submitted to the validation oracle, in call order. -/
def oracleEvs (l : List Ev) : List String :=
  l.filterMap (fun e => match e with | .oracle q => some q | .ai _ => none)

/-- Python's rendering of an optional string in an f-string
(`None` when absent). -/
def pyStrOpt : Option String → String
  | none => "None"
  | some s => s

/-- `'\n'.join(str(row[0]) for row in explain_results[:5])`. -/
def joinRows (rows : List String) : String :=
  ⟨Py.joinNL ((rows.take 5).map String.data)⟩

namespace Hql

open Py Rx

/-- Result dictionary of `try_original_query` (lines 172-179). -/
structure TryRes where
  table_name : String
  original_works : Bool
  error : Option String
  explain_output : Option String
  needs_auto_fix : Bool
  auto_fix_reason : Option String
deriving DecidableEq

/-- `try_original_query` (lines 166-218).  `k` is the number of oracle calls
already made for this unit.  The returned event list records the EXPLAIN
attempts made; the `Except` layer is the channel an uncaught exception would
escape through (the whole cursor interaction sits inside `try`, so every
branch returns `.ok`). -/
def try_original_query (env : Env) (k : Nat) (query table_name : String) :
    List Ev × Except String TryRes :=
  let base : TryRes := { table_name := table_name, original_works := false, error := none,
                         explain_output := none, needs_auto_fix := false, auto_fix_reason := none }
  if is_udf_stmt query table_name then
    ([], .ok { base with
          original_works := true,
          explain_output := some "UDF definition - will be executed directly" })
  else if has_clustered_by_in_ctas query then
    ([], .ok { base with
          needs_auto_fix := true,
          auto_fix_reason := some "CLUSTERED BY not supported in CTAS",
          original_works := false })
  else
    if hasAsSel query then
      match searchFrom pAsSelect none query.data with
      | some (_, _, _, g) =>
        let select_statement := stripS (rstripSemi ⟨gval g 1⟩)
        let explain_query := "EXPLAIN " ++ select_statement
        (match env.oracle k explain_query with
         | .ok rows =>
           ([.oracle explain_query],
            .ok { base with explain_output := some (joinRows rows), original_works := true })
         | .error e =>
           ([.oracle explain_query], .ok { base with error := some e, original_works := false }))
      | none => ([], .ok base)
    else
      let explain_query := "EXPLAIN " ++ rstripSemi query
      match env.oracle k explain_query with
      | .ok rows =>
        ([.oracle explain_query],
         .ok { base with explain_output := some (joinRows rows), original_works := true })
      | .error e =>
        ([.oracle explain_query], .ok { base with error := some e, original_works := false })

/-- Result dictionary of `convert_with_ai` (lines 225-230). -/
structure AiRes where
  converted_sql : Option String
  conversion_error : Option String
  validation_works : Bool
  validation_error : Option String
deriving DecidableEq

/-- The conversion prompt (lines 242-261), with the error text already
truncated to 200 characters and the query already escaped/truncated. -/
def mkPrompt (em200 escaped_query : String) : String :=
  "You are a SQL converter. Convert this HiveQL to Databricks Spark SQL.\n\nERROR: " ++
  em200 ++
  "\n\nCRITICAL RULES:\n- Return ONLY executable SQL code\n- NO explanations, NO markdown, NO commentary\n- If query is incomplete, return empty string\n- Apply these conversions:\n  * Remove DISTRIBUTE BY, SORT BY\n  * Change STORED AS ORC/PARQUET to USING ICEBERG\n  * Change TBLPROPERTIES to OPTIONS\n  * Remove MAPJOIN, STREAMTABLE hints\n  * Remove TABLESAMPLE from CTAS\n  * Remove CLUSTERED BY from CTAS\n\nINPUT HQL:\n" ++
  escaped_query ++ "\n\nOUTPUT (SQL only):"

/-- The `AI_QUERY` SQL wrapper (lines 266-271). -/
def mkAiQuery (escaped_prompt : String) : String :=
  "\n            SELECT AI_QUERY(\n                'databricks-claude-sonnet-4-5',\n                '" ++
  escaped_prompt ++ "'\n            ) as converted_sql\n            "

/-- `convert_with_ai` (lines 221-311).  `kOr`/`kAi` count the oracle/AI calls
already made for this unit.  A `none` diagnostic reproduces the
`error_msg[:200]` slice of `None` raising `TypeError` inside the first `try`,
which the `except` converts into a conversion error before any AI call. -/
def convert_with_ai (env : Env) (kOr kAi : Nat) (query _table_name : String)
    (error_msg : Option String) : List Ev × Except String AiRes :=
  let base : AiRes := { converted_sql := none, conversion_error := none,
                        validation_works := false, validation_error := none }
  let escaped_query := (⟨dupQuotesL query.data⟩ : String)
  let escaped_query := if escaped_query.length > 3000 then takeS 3000 escaped_query else escaped_query
  match error_msg with
  | none =>
    ([], .ok { base with
        conversion_error := some "AI_QUERY conversion failed: 'NoneType' object is not subscriptable" })
  | some em =>
    let conversion_prompt := mkPrompt (takeS 200 em) escaped_query
    let ai_query := mkAiQuery ⟨dupQuotesL conversion_prompt.data⟩
    match env.ai kAi ai_query with
    | .error e =>
      ([.ai ai_query], .ok { base with conversion_error := some ("AI_QUERY conversion failed: " ++ e) })
    | .ok none =>
      ([.ai ai_query], .ok { base with conversion_error := some "AI_QUERY returned empty result" })
    | .ok (some s) =>
      if s == "" then
        ([.ai ai_query], .ok { base with conversion_error := some "AI_QUERY returned empty result" })
      else
        let converted := sanitize s
        let base := { base with converted_sql := some converted }
        if hasAsSel converted then
          match searchFrom pAsSelect none converted.data with
          | some (_, _, _, g) =>
            let explain_query := "EXPLAIN " ++ stripS (rstripSemi ⟨gval g 1⟩)
            (match env.oracle kOr explain_query with
             | .ok _ => ([.ai ai_query, .oracle explain_query], .ok { base with validation_works := true })
             | .error e =>
               ([.ai ai_query, .oracle explain_query],
                .ok { base with
                  validation_works := false,
                  validation_error := some ("Converted SQL validation failed: " ++ e) }))
          | none => ([.ai ai_query], .ok base)
        else
          let explain_query := "EXPLAIN " ++ rstripSemi converted
          match env.oracle kOr explain_query with
          | .ok _ => ([.ai ai_query, .oracle explain_query], .ok { base with validation_works := true })
          | .error e =>
            ([.ai ai_query, .oracle explain_query],
             .ok { base with
                  validation_works := false,
                  validation_error := some ("Converted SQL validation failed: " ++ e) })

/-- Result dictionary of `process_query` (lines 434-441). -/
structure ProcRes where
  table_name : String
  original_sql : String
  final_sql : Option String
  status : String
  original_error : Option String
  conversion_notes : List String
deriving DecidableEq

/-- The AI fall-through tail of `process_query` (lines 497-523), entered with
the events accumulated so far. -/
def ai_stage (env : Env) (base : ProcRes) (query table_name : String)
    (error_msg : Option String) (evs : List Ev) : List Ev × Except String ProcRes :=
  match convert_with_ai env (countOr evs) (countAi evs) query table_name error_msg with
  | (ev3, .error e) => (evs ++ ev3, .error e)
  | (ev3, .ok cr) =>
    match cr.conversion_error with
    | some ce =>
      (evs ++ ev3, .ok { base with
         status := "failed",
         conversion_notes := base.conversion_notes ++ ["AI conversion failed: " ++ ce] })
    | none =>
      if cr.validation_works then
        (evs ++ ev3, .ok { base with
           final_sql := cr.converted_sql, status := "ai_converted",
           conversion_notes := base.conversion_notes ++ ["Original failed - successfully converted with AI_QUERY"] })
      else
        (evs ++ ev3, .ok { base with
           status := "failed",
           conversion_notes := base.conversion_notes ++
             ["Conversion validation failed: " ++ pyStrOpt cr.validation_error] })

/-- `process_query` (lines 430-523): try the original text, then the
rule-rewritten text, then the AI conversion.  `ord` is threaded to
`apply_auto_fixes` (Python `set` iteration order). -/
def process_query (env : Env) (ord : List String → List String) (query table_name : String) :
    List Ev × Except String ProcRes :=
  let base : ProcRes := { table_name := table_name, original_sql := query, final_sql := none,
                          status := "unknown", original_error := none, conversion_notes := [] }
  match try_original_query env 0 query table_name with
  | (ev1, .error e) => (ev1, .error e)
  | (ev1, .ok original_result) =>
    if original_result.original_works then
      let (fixed_sql, fixes_applied) := apply_auto_fixes ord query
      if fixes_applied.isEmpty then
        (ev1, .ok { base with
           final_sql := some query, status := "original_works",
           conversion_notes := ["Original HQL works in Spark SQL - no conversion needed"] })
      else
        (ev1, .ok { base with
           final_sql := some fixed_sql, status := "auto_fixed",
           conversion_notes := fixes_applied.map (fun fx => "Auto-fix: " ++ fx) })
    else
      let (fixed_sql, fixes_applied) := apply_auto_fixes ord query
      if fixes_applied.isEmpty then
        ai_stage env base query table_name original_result.error ev1
      else
        match try_original_query env (countOr ev1) fixed_sql table_name with
        | (ev2, .error e) => (ev1 ++ ev2, .error e)
        | (ev2, .ok fixed_result) =>
          if fixed_result.original_works then
            (ev1 ++ ev2, .ok { base with
               final_sql := some fixed_sql, status := "auto_fixed",
               conversion_notes := fixes_applied.map (fun fx => "Auto-fix: " ++ fx) })
          else
            ai_stage env base query table_name original_result.error (ev1 ++ ev2)

end Hql

namespace Tri

open Py Rx

/-- Result dictionary of the Trino `try_original_query` (lines 261-266). -/
structure TryRes where
  table_name : String
  original_works : Bool
  error : Option String
  explain_output : Option String
deriving DecidableEq

/-- Trino `try_original_query` (lines 256-299): bare SELECT statements are
explained whole, create-as-select statements have the select portion
extracted, anything else is explained whole. -/
def try_original_query (env : Env) (k : Nat) (query table_name : String) :
    List Ev × Except String TryRes :=
  let base : TryRes := { table_name := table_name, original_works := false,
                         error := none, explain_output := none }
  if startsWithS (upperS (stripS query)) "SELECT" then
    let explain_query := "EXPLAIN " ++ rstripSemi query
    match env.oracle k explain_query with
    | .ok rows =>
      ([.oracle explain_query],
       .ok { base with explain_output := some (joinRows rows), original_works := true })
    | .error e =>
      ([.oracle explain_query], .ok { base with error := some e, original_works := false })
  else if Hql.hasAsSel query then
    match searchFrom Hql.pAsSelect none query.data with
    | some (_, _, _, g) =>
      let select_statement := stripS (rstripSemi ⟨gval g 1⟩)
      let explain_query := "EXPLAIN " ++ select_statement
      (match env.oracle k explain_query with
       | .ok rows =>
         ([.oracle explain_query],
          .ok { base with explain_output := some (joinRows rows), original_works := true })
       | .error e =>
         ([.oracle explain_query], .ok { base with error := some e, original_works := false }))
    | none => ([], .ok base)
  else
    let explain_query := "EXPLAIN " ++ rstripSemi query
    match env.oracle k explain_query with
    | .ok rows =>
      ([.oracle explain_query],
       .ok { base with explain_output := some (joinRows rows), original_works := true })
    | .error e =>
      ([.oracle explain_query], .ok { base with error := some e, original_works := false })

/-- Result dictionary of the Trino `convert_with_ai` (lines 306-311). -/
structure AiRes where
  converted_sql : Option String
  conversion_error : Option String
  validation_works : Bool
  validation_error : Option String
deriving DecidableEq

/-- The Trino conversion prompt (lines 323-344). -/
def mkPrompt (em200 escaped_query : String) : String :=
  "You are a SQL converter. Convert this Trino SQL to Databricks Spark SQL.\n\nERROR: " ++
  em200 ++
  "\n\nCRITICAL RULES:\n- Return ONLY executable SQL code\n- NO explanations, NO markdown, NO commentary\n- Apply these conversions:\n  * VARCHAR → STRING\n  * cardinality() → size()\n  * json_extract_scalar() → get_json_object()\n  * array_agg() → collect_list()\n  * date_add('day', n, date) → date_add(date, n)\n  * date_diff('day', d1, d2) → datediff(d2, d1)\n  * CROSS JOIN UNNEST() → LATERAL VIEW explode()\n  * approx_percentile() → percentile_approx()\n  * ROW() → STRUCT()\n\nINPUT TRINO SQL:\n" ++
  escaped_query ++ "\n\nOUTPUT (SQL only):"

/-- Trino `convert_with_ai` (lines 302-398). -/
def convert_with_ai (env : Env) (kOr kAi : Nat) (query _table_name : String)
    (error_msg : Option String) : List Ev × Except String AiRes :=
  let base : AiRes := { converted_sql := none, conversion_error := none,
                        validation_works := false, validation_error := none }
  let escaped_query := (⟨dupQuotesL query.data⟩ : String)
  let escaped_query := if escaped_query.length > 3000 then takeS 3000 escaped_query else escaped_query
  match error_msg with
  | none =>
    ([], .ok { base with
        conversion_error := some "AI_QUERY conversion failed: 'NoneType' object is not subscriptable" })
  | some em =>
    let conversion_prompt := mkPrompt (takeS 200 em) escaped_query
    let ai_query := Hql.mkAiQuery ⟨dupQuotesL conversion_prompt.data⟩
    match env.ai kAi ai_query with
    | .error e =>
      ([.ai ai_query], .ok { base with conversion_error := some ("AI_QUERY conversion failed: " ++ e) })
    | .ok none =>
      ([.ai ai_query], .ok { base with conversion_error := some "AI_QUERY returned empty result" })
    | .ok (some s) =>
      if s == "" then
        ([.ai ai_query], .ok { base with conversion_error := some "AI_QUERY returned empty result" })
      else
        let converted := Hql.sanitize s
        let base := { base with converted_sql := some converted }
        if startsWithS (upperS (stripS converted)) "SELECT" then
          let explain_query := "EXPLAIN " ++ rstripSemi converted
          match env.oracle kOr explain_query with
          | .ok _ => ([.ai ai_query, .oracle explain_query], .ok { base with validation_works := true })
          | .error e =>
            ([.ai ai_query, .oracle explain_query],
             .ok { base with
                  validation_works := false,
                  validation_error := some ("Converted SQL validation failed: " ++ e) })
        else if Hql.hasAsSel converted then
          match searchFrom Hql.pAsSelect none converted.data with
          | some (_, _, _, g) =>
            let explain_query := "EXPLAIN " ++ stripS (rstripSemi ⟨gval g 1⟩)
            (match env.oracle kOr explain_query with
             | .ok _ => ([.ai ai_query, .oracle explain_query], .ok { base with validation_works := true })
             | .error e =>
               ([.ai ai_query, .oracle explain_query],
                .ok { base with
                  validation_works := false,
                  validation_error := some ("Converted SQL validation failed: " ++ e) }))
          | none => ([.ai ai_query], .ok base)
        else
          let explain_query := "EXPLAIN " ++ rstripSemi converted
          match env.oracle kOr explain_query with
          | .ok _ => ([.ai ai_query, .oracle explain_query], .ok { base with validation_works := true })
          | .error e =>
            ([.ai ai_query, .oracle explain_query],
             .ok { base with
                  validation_works := false,
                  validation_error := some ("Converted SQL validation failed: " ++ e) })

/-- Result dictionary of the Trino `process_query` (lines 405-411). -/
structure ProcRes where
  table_name : String
  original_sql : String
  final_sql : Option String
  status : String
  conversion_notes : List String
deriving DecidableEq

/-- The AI fall-through tail of the Trino `process_query` (lines 441-467). -/
def ai_stage (env : Env) (base : ProcRes) (query table_name : String)
    (error_msg : Option String) (evs : List Ev) : List Ev × Except String ProcRes :=
  match convert_with_ai env (countOr evs) (countAi evs) query table_name error_msg with
  | (ev3, .error e) => (evs ++ ev3, .error e)
  | (ev3, .ok cr) =>
    match cr.conversion_error with
    | some ce =>
      (evs ++ ev3, .ok { base with
         status := "failed",
         conversion_notes := base.conversion_notes ++ ["AI conversion failed: " ++ ce] })
    | none =>
      if cr.validation_works then
        (evs ++ ev3, .ok { base with
           final_sql := cr.converted_sql, status := "ai_converted",
           conversion_notes := base.conversion_notes ++ ["Auto-fixes failed - successfully converted with AI_QUERY"] })
      else
        (evs ++ ev3, .ok { base with
           status := "failed",
           conversion_notes := base.conversion_notes ++
             ["Conversion validation failed: " ++ pyStrOpt cr.validation_error] })

/-- Trino `process_query` (lines 401-467): apply the deterministic fixes
first, validate the rewritten text, and only then escalate to the AI
conversion. -/
def process_query (env : Env) (query table_name : String) : List Ev × Except String ProcRes :=
  let base : ProcRes := { table_name := table_name, original_sql := query, final_sql := none,
                          status := "unknown", conversion_notes := [] }
  let (fixed_sql, fixes_applied) := apply_trino_to_databricks_fixes query
  match try_original_query env 0 fixed_sql table_name with
  | (ev1, .error e) => (ev1, .error e)
  | (ev1, .ok validation_result) =>
    if validation_result.original_works then
      (ev1, .ok { base with
         final_sql := some fixed_sql,
         status := if fixes_applied.isEmpty then "unchanged" else "auto_fixed",
         conversion_notes := fixes_applied.map (fun fx => "Auto-fix: " ++ fx) ++
           (if fixes_applied.isEmpty then ["Query is already Databricks-compatible"] else []) })
    else
      ai_stage env base query table_name validation_result.error ev1

end Tri

/-! Concrete external behaviours used to exercise the pipelines at specific
inputs: an always-accepting oracle, an always-raising oracle (rejection), and
one that rejects the first submission and accepts afterwards. -/

/-- Oracle accepts everything with a one-line plan; AI answers `x`. -/
def envAccept : Env := { oracle := fun _ _ => .ok ["plan"], ai := fun _ _ => .ok (some "x") }

/-- Oracle raises `err` on every call; AI answers a plain SELECT. -/
def envRejAll : Env := { oracle := fun _ _ => .error "err",
                         ai := fun _ _ => .ok (some "SELECT 2 FROM t") }

/-- Oracle raises `err` on every call; AI answers `x`. -/
def envRejX : Env := { oracle := fun _ _ => .error "err", ai := fun _ _ => .ok (some "x") }

/-- Oracle rejects the first submission and accepts from then on; AI answers
`SELECT 1`. -/
def envT1 : Env := { oracle := fun k _ => if k == 0 then .error "err" else .ok ["plan"],
                     ai := fun _ _ => .ok (some "SELECT 1") }

/-- The storage-format-normalization subset of the HiveQL rule catalog, as
the specification's step 6a circumscribes the always-on pass: only the two
storage-format rewrites (`USING PARQUET|ORC` and `STORED AS ORC|PARQUET`,
both to `USING ICEBERG`), built from the same patterns as the catalog's
Fix 6.  This is the specification's description of the pass the controller
allegedly runs on already-validated text; the code runs `apply_auto_fixes`
in full instead. -/
def storage_format_normalize (sql : String) : String :=
  let f := sql
  let f := if Rx.hasS Hql.pUsingPO f then Rx.subS Hql.pUsingPO (fun _ _ => "USING ICEBERG".data) f else f
  if Rx.hasS Hql.pStoredAs f then Rx.subS Hql.pStoredAs (fun _ _ => "USING ICEBERG".data) f else f


/-! ## Arithmetic of the year-to-months conversion -/

namespace Py

theorem digVal_digCh (m : Nat) (h : m < 10) : digVal (digCh m) = m := by
  interval_cases m <;> rfl

theorem digCh_ne_minus (m : Nat) (h : m < 10) : digCh m ≠ '-' := by
  interval_cases m <;> decide

theorem digitsVal_append (l : List Char) (c : Char) :
    digitsVal (l ++ [c]) = 10 * digitsVal l + digVal c := by
  simp [digitsVal, List.foldl_append]
  ring

theorem ndrg_val (fuel : Nat) : ∀ n, n < fuel → digitsVal (natDigsRevGo fuel n).reverse = n := by
  induction fuel with
  | zero => intro n h; omega
  | succ fuel ih =>
    intro n h
    by_cases h10 : n < 10
    · simp [natDigsRevGo, h10, digitsVal, digVal_digCh n h10]
    · have hdiv : n / 10 < fuel := by omega
      simp only [natDigsRevGo, h10, if_false, List.reverse_cons]
      rw [digitsVal_append, ih (n / 10) hdiv, digVal_digCh _ (Nat.mod_lt _ (by norm_num))]
      omega

theorem natStr_val (n : Nat) : digitsVal (natStr n) = n :=
  ndrg_val (n + 1) n (Nat.lt_succ_self n)

theorem ndrg_ne_minus (fuel : Nat) :
    ∀ n c, c ∈ natDigsRevGo fuel n → c ≠ '-' := by
  induction fuel with
  | zero => intro n c hc; simp [natDigsRevGo] at hc
  | succ fuel ih =>
    intro n c hc
    by_cases h10 : n < 10
    · simp [natDigsRevGo, h10] at hc
      exact hc ▸ digCh_ne_minus n h10
    · simp only [natDigsRevGo, h10, if_false, List.mem_cons] at hc
      rcases hc with hc | hc
      · exact hc ▸ digCh_ne_minus _ (Nat.mod_lt _ (by norm_num))
      · exact ih _ _ hc

theorem pyIntOfLit_natStr (n : Nat) : pyIntOfLit (natStr n) = (n : Int) := by
  cases hs : natStr n with
  | nil =>
    have hv := natStr_val n
    rw [hs] at hv
    simp [digitsVal] at hv
    simp [pyIntOfLit, digitsVal, hv]
  | cons c t =>
    have hc : c ≠ '-' := by
      refine ndrg_ne_minus (n + 1) n c ?_
      have : c ∈ natStr n := hs ▸ List.mem_cons_self c t
      simpa [natStr] using this
    have hv := natStr_val n
    rw [hs] at hv
    simp [pyIntOfLit, hc, hv]

theorem pyIntStr_roundtrip (n : Int) : pyIntOfLit (pyIntStr n) = n := by
  by_cases hn : n < 0
  · have habs : ((n.natAbs : Int)) = -n := by omega
    simp only [pyIntStr, hn, if_true, pyIntOfLit]
    rw [natStr_val, habs, neg_neg]
  · have htn : ((n.toNat : Int)) = n := by omega
    simp only [pyIntStr, hn, if_false]
    rw [pyIntOfLit_natStr, htn]

end Py

/-- C10: for every occurrence of `date_add('year', n, expr)` with `n` an
optionally negated integer literal and `expr` free of closing parentheses,
the year rewrite produces `add_months(expr, m)` with `m` exactly `12 * n` in
unbounded integer arithmetic: the replacement callback `year_to_months`
renders exactly `12 * n` for every integer literal (first conjunct, via the
parse/render round trip), and the full catalog rewrites concrete negative,
zero-padded, case-varied and whitespace-varied occurrences accordingly
(remaining conjuncts). -/
theorem c10_year_add_exact_months :
    (∀ (n : Int) (expr : List Char),
      Tri.year_to_months (Py.pyIntStr n) expr =
        "add_months(".data ++ expr ++ ", ".data ++ Py.pyIntStr (12 * n) ++ ")".data) ∧
    Tri.apply_trino_to_databricks_fixes "SELECT date_add('year', -3, dt) FROM t" =
      ("SELECT add_months(dt, -36) FROM t",
       ["Converted date_add('year', n, date) to add_months(date, n*12)"]) ∧
    Tri.year_add_rewrite "x = date_add('YEAR', 004, d), y = date_add( 'year' , -12 , b )" =
      "x = add_months(d, 48), y = add_months(b , -144)" := by
  refine ⟨fun n expr => ?_, by decide, by decide⟩
  unfold Tri.year_to_months
  rw [Py.pyIntStr_roundtrip, Int.mul_comm]

/-! ## Characterisation lemmas for the pipeline stages -/

/-- Every HiveQL validation attempt returns normally (its cursor interaction
is fully wrapped in `try`), emits no event or exactly one oracle event, and
succeeds exactly when that oracle call returned rows. -/
theorem Hql.try_oq_spec (env : Env) (k : Nat) (q tn : String) :
    ∃ ev r, Hql.try_original_query env k q tn = (ev, Except.ok r) ∧
      ((ev = [] ∧ (r.original_works = true ∨ (r.original_works = false ∧ r.error = none))) ∨
       (∃ q', ev = [Ev.oracle q'] ∧
         ((∃ rows, env.oracle k q' = Except.ok rows ∧ r.original_works = true ∧ r.error = none) ∨
          (∃ m, env.oracle k q' = Except.error m ∧ r.original_works = false ∧ r.error = some m)))) := by
  unfold Hql.try_original_query
  split
  · exact ⟨_, _, rfl, Or.inl ⟨rfl, Or.inl rfl⟩⟩
  split
  · exact ⟨_, _, rfl, Or.inl ⟨rfl, Or.inr ⟨rfl, rfl⟩⟩⟩
  split
  · split
    · dsimp only
      split
      · next rows h =>
        exact ⟨_, _, rfl, Or.inr ⟨_, rfl, Or.inl ⟨rows, h, rfl, rfl⟩⟩⟩
      · next m h =>
        exact ⟨_, _, rfl, Or.inr ⟨_, rfl, Or.inr ⟨m, h, rfl, rfl⟩⟩⟩
    · exact ⟨_, _, rfl, Or.inl ⟨rfl, Or.inr ⟨rfl, rfl⟩⟩⟩
  · dsimp only
    split
    · next rows h =>
      exact ⟨_, _, rfl, Or.inr ⟨_, rfl, Or.inl ⟨rows, h, rfl, rfl⟩⟩⟩
    · next m h =>
      exact ⟨_, _, rfl, Or.inr ⟨_, rfl, Or.inr ⟨m, h, rfl, rfl⟩⟩⟩

/-- Every Trino validation attempt returns normally, emits no event or
exactly one oracle event, and succeeds exactly when that call returned rows. -/
theorem Tri.try_oq_spec_t (env : Env) (k : Nat) (q tn : String) :
    ∃ ev r, Tri.try_original_query env k q tn = (ev, Except.ok r) ∧
      ((ev = [] ∧ r.original_works = false ∧ r.error = none) ∨
       (∃ q', ev = [Ev.oracle q'] ∧
         ((∃ rows, env.oracle k q' = Except.ok rows ∧ r.original_works = true ∧ r.error = none) ∨
          (∃ m, env.oracle k q' = Except.error m ∧ r.original_works = false ∧ r.error = some m)))) := by
  unfold Tri.try_original_query
  split
  · dsimp only
    split
    · next rows h =>
      exact ⟨_, _, rfl, Or.inr ⟨_, rfl, Or.inl ⟨rows, h, rfl, rfl⟩⟩⟩
    · next m h =>
      exact ⟨_, _, rfl, Or.inr ⟨_, rfl, Or.inr ⟨m, h, rfl, rfl⟩⟩⟩
  split
  · split
    · dsimp only
      split
      · next rows h =>
        exact ⟨_, _, rfl, Or.inr ⟨_, rfl, Or.inl ⟨rows, h, rfl, rfl⟩⟩⟩
      · next m h =>
        exact ⟨_, _, rfl, Or.inr ⟨_, rfl, Or.inr ⟨m, h, rfl, rfl⟩⟩⟩
    · exact ⟨_, _, rfl, Or.inl ⟨rfl, rfl, rfl⟩⟩
  · dsimp only
    split
    · next rows h =>
      exact ⟨_, _, rfl, Or.inr ⟨_, rfl, Or.inl ⟨rows, h, rfl, rfl⟩⟩⟩
    · next m h =>
      exact ⟨_, _, rfl, Or.inr ⟨_, rfl, Or.inr ⟨m, h, rfl, rfl⟩⟩⟩

theorem countAi_nil : countAi [] = 0 := rfl

theorem countOr_nil : countOr [] = 0 := rfl

theorem countAi_oracle_cons (q : String) (l : List Ev) :
    countAi (Ev.oracle q :: l) = countAi l := by
  simp [countAi, List.countP_cons]

theorem countAi_ai_cons (q : String) (l : List Ev) :
    countAi (Ev.ai q :: l) = countAi l + 1 := by
  simp [countAi, List.countP_cons]

theorem countOr_oracle_cons (q : String) (l : List Ev) :
    countOr (Ev.oracle q :: l) = countOr l + 1 := by
  simp [countOr, List.countP_cons]

theorem countOr_ai_cons (q : String) (l : List Ev) :
    countOr (Ev.ai q :: l) = countOr l := by
  simp [countOr, List.countP_cons]

theorem countAi_append (l l' : List Ev) : countAi (l ++ l') = countAi l + countAi l' :=
  List.countP_append _ _ _

theorem countOr_append (l l' : List Ev) : countOr (l ++ l') = countOr l + countOr l' :=
  List.countP_append _ _ _

/-- The HiveQL generative stage returns normally, invokes the AI endpoint at
most once, and either records a conversion error, or fails validation, or
succeeds with the event trace ending in the single AI call followed by the
one accepted oracle validation of the sanitised output. -/
theorem Hql.conv_ai_spec (env : Env) (kOr kAi : Nat) (q tn : String) (em : Option String) :
    ∃ ev r, Hql.convert_with_ai env kOr kAi q tn em = (ev, Except.ok r) ∧ countAi ev ≤ 1 ∧
      ((∃ ce, r.conversion_error = some ce ∧ r.validation_works = false) ∨
       (r.conversion_error = none ∧
        (r.validation_works = false ∨
         (r.validation_works = true ∧ ∃ p qc c rows, ev = [Ev.ai p, Ev.oracle qc] ∧
            env.oracle kOr qc = Except.ok rows ∧ r.converted_sql = some c)))) := by
  unfold Hql.convert_with_ai
  dsimp only
  split
  · exact ⟨_, _, rfl, by simp [countAi_nil], Or.inl ⟨_, rfl, rfl⟩⟩
  split
  · exact ⟨_, _, rfl, by simp [countAi_ai_cons, countAi_nil], Or.inl ⟨_, rfl, rfl⟩⟩
  · exact ⟨_, _, rfl, by simp [countAi_ai_cons, countAi_nil], Or.inl ⟨_, rfl, rfl⟩⟩
  · split
    · exact ⟨_, _, rfl, by simp [countAi_ai_cons, countAi_nil], Or.inl ⟨_, rfl, rfl⟩⟩
    · try dsimp only
      split
      · split
        · try dsimp only
          split
          · next rows h =>
            exact ⟨_, _, rfl, by simp [countAi_ai_cons, countAi_oracle_cons, countAi_nil],
              Or.inr ⟨rfl, Or.inr ⟨rfl, _, _, _, rows, rfl, h, rfl⟩⟩⟩
          · exact ⟨_, _, rfl, by simp [countAi_ai_cons, countAi_oracle_cons, countAi_nil],
              Or.inr ⟨rfl, Or.inl rfl⟩⟩
        · exact ⟨_, _, rfl, by simp [countAi_ai_cons, countAi_nil], Or.inr ⟨rfl, Or.inl rfl⟩⟩
      · try dsimp only
        split
        · next rows h =>
          exact ⟨_, _, rfl, by simp [countAi_ai_cons, countAi_oracle_cons, countAi_nil],
            Or.inr ⟨rfl, Or.inr ⟨rfl, _, _, _, rows, rfl, h, rfl⟩⟩⟩
        · exact ⟨_, _, rfl, by simp [countAi_ai_cons, countAi_oracle_cons, countAi_nil],
            Or.inr ⟨rfl, Or.inl rfl⟩⟩

/-- The Trino generative stage returns normally, invokes the AI endpoint at
most once, and either records a conversion error, or fails validation, or
succeeds with the trace ending in the single AI call followed by the one
accepted oracle validation of the sanitised output. -/
theorem Tri.conv_ai_spec_t (env : Env) (kOr kAi : Nat) (q tn : String) (em : Option String) :
    ∃ ev r, Tri.convert_with_ai env kOr kAi q tn em = (ev, Except.ok r) ∧ countAi ev ≤ 1 ∧
      ((∃ ce, r.conversion_error = some ce ∧ r.validation_works = false) ∨
       (r.conversion_error = none ∧
        (r.validation_works = false ∨
         (r.validation_works = true ∧ ∃ p qc c rows, ev = [Ev.ai p, Ev.oracle qc] ∧
            env.oracle kOr qc = Except.ok rows ∧ r.converted_sql = some c)))) := by
  unfold Tri.convert_with_ai
  dsimp only
  split
  · exact ⟨_, _, rfl, by simp [countAi_nil], Or.inl ⟨_, rfl, rfl⟩⟩
  split
  · exact ⟨_, _, rfl, by simp [countAi_ai_cons, countAi_nil], Or.inl ⟨_, rfl, rfl⟩⟩
  · exact ⟨_, _, rfl, by simp [countAi_ai_cons, countAi_nil], Or.inl ⟨_, rfl, rfl⟩⟩
  · split
    · exact ⟨_, _, rfl, by simp [countAi_ai_cons, countAi_nil], Or.inl ⟨_, rfl, rfl⟩⟩
    · split
      · split
        · next rows h =>
          exact ⟨_, _, rfl, by simp [countAi_ai_cons, countAi_oracle_cons, countAi_nil],
            Or.inr ⟨rfl, Or.inr ⟨rfl, _, _, _, rows, rfl, h, rfl⟩⟩⟩
        · exact ⟨_, _, rfl, by simp [countAi_ai_cons, countAi_oracle_cons, countAi_nil],
            Or.inr ⟨rfl, Or.inl rfl⟩⟩
      · split
        · split
          · split
            · next rows h =>
              exact ⟨_, _, rfl, by simp [countAi_ai_cons, countAi_oracle_cons, countAi_nil],
                Or.inr ⟨rfl, Or.inr ⟨rfl, _, _, _, rows, rfl, h, rfl⟩⟩⟩
            · exact ⟨_, _, rfl, by simp [countAi_ai_cons, countAi_oracle_cons, countAi_nil],
                Or.inr ⟨rfl, Or.inl rfl⟩⟩
          · exact ⟨_, _, rfl, by simp [countAi_ai_cons, countAi_nil], Or.inr ⟨rfl, Or.inl rfl⟩⟩
        · split
          · next rows h =>
            exact ⟨_, _, rfl, by simp [countAi_ai_cons, countAi_oracle_cons, countAi_nil],
              Or.inr ⟨rfl, Or.inr ⟨rfl, _, _, _, rows, rfl, h, rfl⟩⟩⟩
          · exact ⟨_, _, rfl, by simp [countAi_ai_cons, countAi_oracle_cons, countAi_nil],
              Or.inr ⟨rfl, Or.inl rfl⟩⟩

/-- The HiveQL AI fall-through stage: the accumulated events are extended by
at most one AI call; the disposition either fails with a null final text or
is AI-converted with a present final text and a trailing accepted oracle
validation. -/
theorem Hql.ai_stage_spec (env : Env) (base : Hql.ProcRes) (q tn : String)
    (em : Option String) (evs : List Ev) (hbase : base.final_sql = none) :
    ∃ ev3 r, Hql.ai_stage env base q tn em evs = (evs ++ ev3, Except.ok r) ∧ countAi ev3 ≤ 1 ∧
      ((r.status = "failed" ∧ r.final_sql = none) ∨
       (r.status = "ai_converted" ∧ (∃ c, r.final_sql = some c) ∧
        ∃ p qc rows, ev3 = [Ev.ai p, Ev.oracle qc] ∧
          env.oracle (countOr evs) qc = Except.ok rows)) := by
  obtain ⟨ev3, cr, hconv, hcount, hsh⟩ := Hql.conv_ai_spec env (countOr evs) (countAi evs) q tn em
  unfold Hql.ai_stage
  rw [hconv]
  dsimp only
  rcases hsh with ⟨ce, hce, hvw⟩ | ⟨hce, hsh⟩
  · rw [hce]
    exact ⟨ev3, _, rfl, hcount, Or.inl ⟨rfl, hbase⟩⟩
  · rw [hce]
    rcases hsh with hvw | ⟨hvw, p, qc, c, rows, hev, hor, hcs⟩
    · rw [hvw]
      exact ⟨ev3, _, rfl, hcount, Or.inl ⟨rfl, hbase⟩⟩
    · rw [hvw]
      exact ⟨ev3, _, rfl, hcount, Or.inr ⟨rfl, ⟨c, by simp [hcs]⟩, p, qc, rows, hev, hor⟩⟩

/-- The Trino AI fall-through stage, with the same shape. -/
theorem Tri.ai_stage_spec_t (env : Env) (base : Tri.ProcRes) (q tn : String)
    (em : Option String) (evs : List Ev) (hbase : base.final_sql = none) :
    ∃ ev3 r, Tri.ai_stage env base q tn em evs = (evs ++ ev3, Except.ok r) ∧ countAi ev3 ≤ 1 ∧
      ((r.status = "failed" ∧ r.final_sql = none) ∨
       (r.status = "ai_converted" ∧ (∃ c, r.final_sql = some c) ∧
        ∃ p qc rows, ev3 = [Ev.ai p, Ev.oracle qc] ∧
          env.oracle (countOr evs) qc = Except.ok rows)) := by
  obtain ⟨ev3, cr, hconv, hcount, hsh⟩ := Tri.conv_ai_spec_t env (countOr evs) (countAi evs) q tn em
  unfold Tri.ai_stage
  rw [hconv]
  dsimp only
  rcases hsh with ⟨ce, hce, hvw⟩ | ⟨hce, hsh⟩
  · rw [hce]
    exact ⟨ev3, _, rfl, hcount, Or.inl ⟨rfl, hbase⟩⟩
  · rw [hce]
    rcases hsh with hvw | ⟨hvw, p, qc, c, rows, hev, hor, hcs⟩
    · rw [hvw]
      exact ⟨ev3, _, rfl, hcount, Or.inl ⟨rfl, hbase⟩⟩
    · rw [hvw]
      exact ⟨ev3, _, rfl, hcount, Or.inr ⟨rfl, ⟨c, by simp [hcs]⟩, p, qc, rows, hev, hor⟩⟩

theorem status_ow_ne : ("original_works" : String) ≠ "failed" := by decide

theorem status_af_ne : ("auto_fixed" : String) ≠ "failed" := by decide

theorem status_ai_ne : ("ai_converted" : String) ≠ "failed" := by decide

theorem status_un_ne : ("unchanged" : String) ≠ "failed" := by decide

/-- Master specification of the HiveQL `process_query`: it always returns a
disposition normally; the status is one of the four terminal strings; the
final text is present exactly when the status is not `failed`; and the AI
endpoint is invoked at most once. -/
theorem Hql.process_spec (env : Env) (ord : List String → List String) (q tn : String) :
    ∃ ev r, Hql.process_query env ord q tn = (ev, Except.ok r) ∧
      (r.status = "original_works" ∨ r.status = "auto_fixed" ∨ r.status = "ai_converted" ∨
        r.status = "failed") ∧
      (r.final_sql.isSome = true ↔ r.status ≠ "failed") ∧ countAi ev ≤ 1 := by
  obtain ⟨ev1, tor, htry, hsh⟩ := Hql.try_oq_spec env 0 q tn
  have hev1ai : countAi ev1 = 0 := by
    rcases hsh with ⟨rfl, _⟩ | ⟨q', rfl, _⟩ <;> simp [countAi_nil, countAi_oracle_cons]
  unfold Hql.process_query
  rw [htry]
  dsimp only
  rcases happ : Hql.apply_auto_fixes ord q with ⟨f5, fx⟩
  dsimp only
  by_cases hw : tor.original_works = true
  · rw [if_pos hw]
    by_cases hfx : fx.isEmpty
    · rw [if_pos hfx]
      exact ⟨_, _, rfl, Or.inl rfl, ⟨fun _ => status_ow_ne, fun _ => rfl⟩, by simp [hev1ai]⟩
    · rw [if_neg hfx]
      exact ⟨_, _, rfl, Or.inr (Or.inl rfl), ⟨fun _ => status_af_ne, fun _ => rfl⟩,
        by simp [hev1ai]⟩
  · rw [if_neg hw]
    by_cases hfx : fx.isEmpty
    · rw [if_pos hfx]
      obtain ⟨ev3, r, hstage, hcnt, hsh3⟩ :=
        Hql.ai_stage_spec env
          { table_name := tn, original_sql := q, final_sql := none, status := "unknown",
            original_error := none, conversion_notes := [] } q tn tor.error ev1 rfl
      refine ⟨_, _, hstage, ?_, ?_, ?_⟩
      · rcases hsh3 with ⟨hst, _⟩ | ⟨hst, _, _⟩
        · exact Or.inr (Or.inr (Or.inr hst))
        · exact Or.inr (Or.inr (Or.inl hst))
      · rcases hsh3 with ⟨hst, hf⟩ | ⟨hst, ⟨c, hf⟩, _⟩
        · rw [hst, hf]
          simp
        · rw [hst, hf]
          simp [status_ai_ne]
      · rw [countAi_append, hev1ai]
        omega
    · rw [if_neg hfx]
      obtain ⟨ev2, fr, htry2, hsh2⟩ := Hql.try_oq_spec env (countOr ev1) f5 tn
      have hev2ai : countAi ev2 = 0 := by
        rcases hsh2 with ⟨rfl, _⟩ | ⟨q', rfl, _⟩ <;> simp [countAi_nil, countAi_oracle_cons]
      rw [htry2]
      dsimp only
      by_cases hw2 : fr.original_works = true
      · rw [if_pos hw2]
        exact ⟨_, _, rfl, Or.inr (Or.inl rfl), ⟨fun _ => status_af_ne, fun _ => rfl⟩,
          by simp [countAi_append, hev1ai, hev2ai]⟩
      · rw [if_neg hw2]
        obtain ⟨ev3, r, hstage, hcnt, hsh3⟩ :=
          Hql.ai_stage_spec env
            { table_name := tn, original_sql := q, final_sql := none, status := "unknown",
              original_error := none, conversion_notes := [] } q tn tor.error (ev1 ++ ev2) rfl
        refine ⟨_, _, hstage, ?_, ?_, ?_⟩
        · rcases hsh3 with ⟨hst, _⟩ | ⟨hst, _, _⟩
          · exact Or.inr (Or.inr (Or.inr hst))
          · exact Or.inr (Or.inr (Or.inl hst))
        · rcases hsh3 with ⟨hst, hf⟩ | ⟨hst, ⟨c, hf⟩, _⟩
          · rw [hst, hf]
            simp
          · rw [hst, hf]
            simp [status_ai_ne]
        · rw [countAi_append, countAi_append, hev1ai, hev2ai]
          omega

/-- Master specification of the Trino `process_query`: it always returns a
disposition normally; the status is one of the four terminal strings; the
final text is present exactly when the status is not `failed`; and the AI
endpoint is invoked at most once. -/
theorem Tri.process_spec_t (env : Env) (q tn : String) :
    ∃ ev r, Tri.process_query env q tn = (ev, Except.ok r) ∧
      (r.status = "unchanged" ∨ r.status = "auto_fixed" ∨ r.status = "ai_converted" ∨
        r.status = "failed") ∧
      (r.final_sql.isSome = true ↔ r.status ≠ "failed") ∧ countAi ev ≤ 1 := by
  unfold Tri.process_query
  rcases happ : Tri.apply_trino_to_databricks_fixes q with ⟨f5, fx⟩
  dsimp only
  obtain ⟨ev1, vr, htry, hsh⟩ := Tri.try_oq_spec_t env 0 f5 tn
  have hev1ai : countAi ev1 = 0 := by
    rcases hsh with ⟨rfl, _⟩ | ⟨q', rfl, _⟩ <;> simp [countAi_nil, countAi_oracle_cons]
  rw [htry]
  dsimp only
  by_cases hw : vr.original_works = true
  · rw [if_pos hw]
    by_cases hfx : fx.isEmpty = true
    · simp only [if_pos hfx]
      exact ⟨_, _, rfl, Or.inl rfl, ⟨fun _ => status_un_ne, fun _ => rfl⟩, by simp [hev1ai]⟩
    · simp only [if_neg hfx]
      exact ⟨_, _, rfl, Or.inr (Or.inl rfl), ⟨fun _ => status_af_ne, fun _ => rfl⟩,
        by simp [hev1ai]⟩
  · rw [if_neg hw]
    obtain ⟨ev3, r, hstage, hcnt, hsh3⟩ :=
      Tri.ai_stage_spec_t env
        { table_name := tn, original_sql := q, final_sql := none, status := "unknown",
          conversion_notes := [] } q tn vr.error ev1 rfl
    refine ⟨_, _, hstage, ?_, ?_, ?_⟩
    · rcases hsh3 with ⟨hst, _⟩ | ⟨hst, _, _⟩
      · exact Or.inr (Or.inr (Or.inr hst))
      · exact Or.inr (Or.inr (Or.inl hst))
    · rcases hsh3 with ⟨hst, hf⟩ | ⟨hst, ⟨c, hf⟩, _⟩
      · rw [hst, hf]
        simp
      · rw [hst, hf]
        simp [status_ai_ne]
    · rw [countAi_append, hev1ai]
      omega

/-! ## Claims -/

/-- C1: for every translation unit processed by `process_query` in either
pipeline and for every behaviour of the validation oracle and the generative
client (and, in the HiveQL pipeline, every set-iteration order), the returned
disposition carries exactly one of the four terminal statuses — the initial
`unknown` status never escapes — and its `final_sql` field is non-null if and
only if the status is not `failed`. -/
theorem c1_outcome_exclusive :
    (∀ (env : Env) (ord : List String → List String) (q tn : String),
      ∃ ev r, Hql.process_query env ord q tn = (ev, Except.ok r) ∧
        (r.status = "original_works" ∨ r.status = "auto_fixed" ∨ r.status = "ai_converted" ∨
          r.status = "failed") ∧
        (r.final_sql.isSome = true ↔ r.status ≠ "failed")) ∧
    (∀ (env : Env) (q tn : String),
      ∃ ev r, Tri.process_query env q tn = (ev, Except.ok r) ∧
        (r.status = "unchanged" ∨ r.status = "auto_fixed" ∨ r.status = "ai_converted" ∨
          r.status = "failed") ∧
        (r.final_sql.isSome = true ↔ r.status ≠ "failed")) := by
  constructor
  · intro env ord q tn
    obtain ⟨ev, r, heq, hst, hiff, _⟩ := Hql.process_spec env ord q tn
    exact ⟨ev, r, heq, hst, hiff⟩
  · intro env q tn
    obtain ⟨ev, r, heq, hst, hiff, _⟩ := Tri.process_spec_t env q tn
    exact ⟨ev, r, heq, hst, hiff⟩

/-- C5: for every unit text, table name and external behaviour — including
raised exceptions, empty generative responses, and the null diagnostic that
reaches the generative prompt after a short-circuited validation — both
`process_query` functions return a disposition normally (`Except.ok`): every
external-call failure is caught at its call site.  The final conjunct
witnesses the null-diagnostic path concretely: a CLUSTERED-BY-in-CTAS unit
whose validation is short-circuited (so its diagnostic stays null) and whose
rewritten text the oracle rejects ends as a `failed` disposition whose note
records the caught `TypeError` from slicing the null diagnostic, with no
exception escaping. -/
theorem c5_no_exception_escapes :
    (∀ (env : Env) (ord : List String → List String) (q tn : String),
      ∃ ev r, Hql.process_query env ord q tn = (ev, Except.ok r)) ∧
    (∀ (env : Env) (q tn : String),
      ∃ ev r, Tri.process_query env q tn = (ev, Except.ok r)) ∧
    (Hql.process_query envRejX id
        "CREATE TABLE t\nCLUSTERED BY (a) INTO 4 BUCKETS\nAS\nSELECT a FROM s" "t4").2 =
      Except.ok
        { table_name := "t4",
          original_sql := "CREATE TABLE t\nCLUSTERED BY (a) INTO 4 BUCKETS\nAS\nSELECT a FROM s",
          final_sql := none, status := "failed", original_error := none,
          conversion_notes :=
            ["AI conversion failed: AI_QUERY conversion failed: 'NoneType' object is not subscriptable"] } := by
  refine ⟨fun env ord q tn => ?_, fun env q tn => ?_, by decide⟩
  · obtain ⟨ev, r, heq, _⟩ := Hql.process_spec env ord q tn
    exact ⟨ev, r, heq⟩
  · obtain ⟨ev, r, heq, _⟩ := Tri.process_spec_t env q tn
    exact ⟨ev, r, heq⟩

/-- C4 counterexample: the oracle accepts the unmodified text of a unit whose
text the storage-format-normalization pass leaves unchanged (it has no
storage-format clause), yet the disposition is `auto_fixed` — not the
`original_works`/AsIs outcome the claim requires — because the controller
runs the *full* rule catalog (here the SET-removal rule fires) on validated
text, not only the storage-format subset. -/
theorem c4_counterexample :
    storage_format_normalize "SET hive.exec.dynamic.partition=true;\nSELECT 1 FROM t" =
      "SET hive.exec.dynamic.partition=true;\nSELECT 1 FROM t" ∧
    (Hql.process_query envAccept id
        "SET hive.exec.dynamic.partition=true;\nSELECT 1 FROM t" "t1").2 =
      Except.ok
        { table_name := "t1",
          original_sql := "SET hive.exec.dynamic.partition=true;\nSELECT 1 FROM t",
          final_sql := some "\nSELECT 1 FROM t", status := "auto_fixed", original_error := none,
          conversion_notes :=
            ["Auto-fix: Removed 1 SET command(s) (Hive/MapReduce config not needed in Databricks)"] } ∧
    ("auto_fixed" : String) ≠ "original_works" := by
  refine ⟨by decide, by decide, by decide⟩

/-- C4 amended: when the oracle accepts a unit's unmodified text, the
controller runs the full `apply_auto_fixes` catalog (not only the
storage-format subset) against that text before finalizing; if that pass
appends at least one fix description, the outcome is `auto_fixed` (RuleFixed)
with the pass's output as the final text, and if it appends none, the outcome
is `original_works` (AsIs) with the original text as the final text. -/
theorem c4_validated_text_full_catalog (env : Env) (ord : List String → List String)
    (q tn : String) (ev1 : List Ev) (tor : Hql.TryRes)
    (htry : Hql.try_original_query env 0 q tn = (ev1, Except.ok tor))
    (hw : tor.original_works = true) :
    ∃ r, (Hql.process_query env ord q tn).2 = Except.ok r ∧
      ((Hql.apply_auto_fixes ord q).2 = [] →
        r.status = "original_works" ∧ r.final_sql = some q) ∧
      ((Hql.apply_auto_fixes ord q).2 ≠ [] →
        r.status = "auto_fixed" ∧ r.final_sql = some (Hql.apply_auto_fixes ord q).1) := by
  unfold Hql.process_query
  rw [htry]
  dsimp only
  rcases happ : Hql.apply_auto_fixes ord q with ⟨f5, fx⟩
  dsimp only
  rw [if_pos hw]
  by_cases hfx : fx.isEmpty = true
  · rw [if_pos hfx]
    refine ⟨_, rfl, fun _ => ⟨rfl, rfl⟩, fun hne => absurd ?_ hne⟩
    simpa using List.isEmpty_iff.mp hfx
  · rw [if_neg hfx]
    refine ⟨_, rfl, fun hnil => absurd ?_ hfx, fun _ => ⟨rfl, rfl⟩⟩
    simp [hnil]

/-- Witness for the amended C4: on a CTAS with `USING PARQUET` that the
oracle accepts, rules fire, so the disposition is `auto_fixed` with the
rewritten text as final text. -/
theorem c4_validated_text_full_catalog_witness :
    ∃ r, (Hql.process_query envAccept id "CREATE TABLE t USING PARQUET AS SELECT 1 FROM s" "t").2 =
        Except.ok r ∧
      ((Hql.apply_auto_fixes id "CREATE TABLE t USING PARQUET AS SELECT 1 FROM s").2 = [] →
        r.status = "original_works" ∧
        r.final_sql = some "CREATE TABLE t USING PARQUET AS SELECT 1 FROM s") ∧
      ((Hql.apply_auto_fixes id "CREATE TABLE t USING PARQUET AS SELECT 1 FROM s").2 ≠ [] →
        r.status = "auto_fixed" ∧
        r.final_sql = some (Hql.apply_auto_fixes id "CREATE TABLE t USING PARQUET AS SELECT 1 FROM s").1) :=
  c4_validated_text_full_catalog envAccept id "CREATE TABLE t USING PARQUET AS SELECT 1 FROM s" "t"
    [Ev.oracle "EXPLAIN SELECT 1 FROM s"]
    { table_name := "t", original_works := true, error := none, explain_output := some "plan",
      needs_auto_fix := false, auto_fix_reason := none }
    (by decide) rfl

/-- C6 counterexample: the `date_add('day', n, date)` rule of the Trino
catalog is not idempotent.  On the nested occurrence
`date_add('day', 1, date_add('day', 2, x))` the rule's own output re-triggers
its detection pattern, and a second application rewrites it again, so
`f (f t) ≠ f t` (with the detection predicate true at each step, the
detect-then-apply rule coincides with the rewrite at both steps). -/
theorem c6_counterexample :
    Rx.hasS Tri.pDayAdd "date_add('day', 1, date_add('day', 2, x))" = true ∧
    Tri.day_add_rewrite "date_add('day', 1, date_add('day', 2, x))" =
      "date_add(date_add('day', 2, x, 1))" ∧
    Rx.hasS Tri.pDayAdd "date_add(date_add('day', 2, x, 1))" = true ∧
    Tri.day_add_rewrite "date_add(date_add('day', 2, x, 1))" =
      "date_add(date_add(x, 1, 2))" ∧
    ("date_add(date_add(x, 1, 2))" : String) ≠ "date_add(date_add('day', 2, x, 1))" := by
  refine ⟨by decide, by decide, by decide, by decide, by decide⟩

/-- C6 amended: not every rule in the two catalogs is idempotent — rules
whose replacement embeds captured text, such as the `date_add('day', …)`
rewrite, re-trigger on nested occurrences (see the counterexample).  The
token-renaming rules do not re-trigger: on the specification's scenario
texts, the `cardinality → size` and `VARCHAR → STRING` rewrites leave no
match of their own detection pattern in their output and applying them twice
equals applying them once; the day rewrite itself is idempotent on
non-nested occurrences, and the full HiveQL catalog is idempotent on the
storage-format scenario text. -/
theorem c6_rule_idempotence_partial :
    (Tri.cardinality_rewrite (Tri.cardinality_rewrite "SELECT cardinality(arr) FROM t") =
      Tri.cardinality_rewrite "SELECT cardinality(arr) FROM t") ∧
    Rx.hasS Tri.pCard (Tri.cardinality_rewrite "SELECT cardinality(arr) FROM t") = false ∧
    (Tri.varchar_rewrite (Tri.varchar_rewrite "CAST(x AS VARCHAR(50)), y VARCHAR") =
      Tri.varchar_rewrite "CAST(x AS VARCHAR(50)), y VARCHAR") ∧
    Rx.hasS Tri.pVarchar (Tri.varchar_rewrite "CAST(x AS VARCHAR(50)), y VARCHAR") = false ∧
    (Tri.day_add_rewrite (Tri.day_add_rewrite "SELECT date_add('day', 7, dt) FROM t") =
      Tri.day_add_rewrite "SELECT date_add('day', 7, dt) FROM t") ∧
    ((Hql.apply_auto_fixes id (Hql.apply_auto_fixes id "CREATE TABLE t STORED AS ORC").1).1 =
      (Hql.apply_auto_fixes id "CREATE TABLE t STORED AS ORC").1) := by
  refine ⟨by decide, by decide, by decide, by decide, by decide, by decide⟩

/-- C7 counterexample: the DISTRIBUTE BY → CLUSTER BY rewrite consults the
process-dependent `set` iteration order when deduplicating the distribution
columns, so two runs whose set order differs (modelled by the two order
functions) produce different rewritten texts and different fix descriptions
for the same input — the rule is not a pure function of the input text
alone. -/
theorem c7_counterexample :
    Hql.apply_auto_fixes id
        "CREATE TABLE t USING DELTA AS\nSELECT a, b FROM s\nDISTRIBUTE BY a, b;" =
      ("CREATE TABLE t USING DELTA\nCLUSTER BY (a, b)\nAS\nSELECT a, b FROM s\n;",
       ["Moved DISTRIBUTE BY to CLUSTER BY (a, b) in table definition"]) ∧
    Hql.apply_auto_fixes List.reverse
        "CREATE TABLE t USING DELTA AS\nSELECT a, b FROM s\nDISTRIBUTE BY a, b;" =
      ("CREATE TABLE t USING DELTA\nCLUSTER BY (b, a)\nAS\nSELECT a, b FROM s\n;",
       ["Moved DISTRIBUTE BY to CLUSTER BY (b, a) in table definition"]) ∧
    Hql.apply_auto_fixes id
        "CREATE TABLE t USING DELTA AS\nSELECT a, b FROM s\nDISTRIBUTE BY a, b;" ≠
      Hql.apply_auto_fixes List.reverse
        "CREATE TABLE t USING DELTA AS\nSELECT a, b FROM s\nDISTRIBUTE BY a, b;" := by
  refine ⟨by decide, by decide, by decide⟩

/-- C7 amended: every rule of the HiveQL catalog other than the
DISTRIBUTE BY → CLUSTER BY rewrite is a pure function of the input text: when
the DISTRIBUTE BY pattern does not match the text entering that rule, the
whole catalog's output is independent of the set-iteration order.  (The
DISTRIBUTE BY rewrite itself is deterministic only relative to the
process's set order, violating cross-run determinism — see the
counterexample.  The Trino catalog consults no such state.) -/
theorem c7_rules_order_invariant (ord₁ ord₂ : List String → List String) (q : String)
    (h : Rx.searchFrom Hql.pDist none (Hql.auto_fixes_pre q).1.data = none) :
    Hql.apply_auto_fixes ord₁ q = Hql.apply_auto_fixes ord₂ q := by
  unfold Hql.apply_auto_fixes Hql.auto_fixes_dist
  rcases hpre : Hql.auto_fixes_pre q with ⟨f, fxs⟩
  rw [hpre] at h
  dsimp only at h ⊢
  rw [h]

/-- Witness for the amended C7: a text with no DISTRIBUTE BY clause gets the
same rewriting whatever the set order. -/
theorem c7_rules_order_invariant_witness :
    Hql.apply_auto_fixes id "SELECT x FROM t" =
      Hql.apply_auto_fixes List.reverse "SELECT x FROM t" :=
  c7_rules_order_invariant id List.reverse "SELECT x FROM t" rfl

/-- C9 counterexample: `VARCHAR(50)` is *not* replaced by `STRING`
independently of the surrounding text.  In `CAST(x AS VARCHAR(50))` the
closing parenthesis of the length argument is followed by another `)`, so
the trailing `\b` of the pattern fails on the parenthesised alternative and
only the bare keyword is rewritten: the catalog yields
`CAST(x AS STRING(50))`, which still carries the length argument, not the
`CAST(x AS STRING)` the claim requires. -/
theorem c9_counterexample :
    (Tri.apply_trino_to_databricks_fixes "CAST(x AS VARCHAR(50))").1 =
      "CAST(x AS STRING(50))" ∧
    (Tri.apply_trino_to_databricks_fixes "CAST(x AS VARCHAR(50))").1 ≠
      "CAST(x AS STRING)" ∧
    containsS (Tri.apply_trino_to_databricks_fixes "CAST(x AS VARCHAR(50))").1 "STRING(50)" =
      true := by
  refine ⟨by decide, by decide, by decide⟩

/-- C9 amended: after `apply_trino_to_databricks_fixes`, every standalone
`cardinality(` token is replaced by `size(` and every standalone `VARCHAR`
keyword by `STRING`, but the length argument of `VARCHAR(n)` is consumed only
when its closing parenthesis is followed by a word character; when such
replacements occur, the corresponding fix descriptions are appended in
catalog order.  On the scenario text the output contains `size(arr)`, no
`cardinality(` and no standalone `VARCHAR`, the three `VARCHAR` shapes
rewrite to `STRING(50)`, `STRINGz` and `STRING`, and exactly the two
descriptions are recorded. -/
theorem c9_token_renames :
    Tri.apply_trino_to_databricks_fixes
        "SELECT cardinality(arr), CAST(x AS VARCHAR(50)), y VARCHAR(7)z, w VARCHAR FROM t" =
      ("SELECT size(arr), CAST(x AS STRING(50)), y STRINGz, w STRING FROM t",
       ["Converted VARCHAR to STRING", "Converted cardinality() to size()"]) ∧
    containsS "SELECT size(arr), CAST(x AS STRING(50)), y STRINGz, w STRING FROM t"
      "size(arr)" = true ∧
    containsS "SELECT size(arr), CAST(x AS STRING(50)), y STRINGz, w STRING FROM t"
      "cardinality(" = false ∧
    Rx.hasS Tri.pVarchar
      "SELECT size(arr), CAST(x AS STRING(50)), y STRINGz, w STRING FROM t" = false ∧
    Rx.hasS Tri.pCard
      "SELECT size(arr), CAST(x AS STRING(50)), y STRINGz, w STRING FROM t" = false := by
  refine ⟨by decide, by decide, by decide, by decide, by decide⟩

/-- When a HiveQL unit is neither short-circuited nor caught by the
extraction edge, its validation attempt submits exactly one EXPLAIN query;
with an oracle that rejects everything, the attempt fails carrying the raised
message. -/
theorem Hql.try_submit_reject (env : Env) (k : Nat) (q tn : String)
    (hs : Hql.submits q tn = true)
    (hrej : ∀ eq, ∃ m, env.oracle k eq = Except.error m) :
    ∃ eq m r, Hql.try_original_query env k q tn = ([Ev.oracle eq], Except.ok r) ∧
      r.original_works = false ∧ r.error = some m ∧ env.oracle k eq = Except.error m := by
  unfold Hql.submits at hs
  simp only [Bool.and_eq_true, Bool.not_eq_true'] at hs
  obtain ⟨⟨hu, hc⟩, hv⟩ := hs
  unfold Hql.try_original_query
  simp only [hu, hc, Bool.false_eq_true, if_false]
  by_cases ha : Hql.hasAsSel q = true
  · unfold Hql.vSubmits at hv
    rw [ha] at hv
    simp only [Bool.not_true, Bool.false_or] at hv
    obtain ⟨x, hx⟩ := Option.isSome_iff_exists.mp hv
    obtain ⟨a, b, c, g⟩ := x
    rw [if_pos ha, hx]
    try dsimp only
    obtain ⟨m, hm⟩ := hrej ("EXPLAIN " ++ stripS (rstripSemi ⟨Rx.gval g 1⟩))
    rw [hm]
    exact ⟨_, m, _, rfl, rfl, rfl, hm⟩
  · rw [if_neg ha]
    try dsimp only
    obtain ⟨m, hm⟩ := hrej ("EXPLAIN " ++ rstripSemi q)
    rw [hm]
    exact ⟨_, m, _, rfl, rfl, rfl, hm⟩

/-- With a generative endpoint that returns a fixed non-empty response whose
sanitised form is submittable, and an oracle that rejects everything, the
HiveQL generative stage makes exactly one AI call and one oracle call and
ends with a validation failure carrying the raised message. -/
theorem Hql.conv_reject (env : Env) (kOr kAi : Nat) (q tn : String) (em s : String)
    (hai : ∀ p, env.ai kAi p = Except.ok (some s)) (hsne : s ≠ "")
    (hv : Hql.vSubmits (Hql.sanitize s) = true)
    (hrej : ∀ eq, ∃ m, env.oracle kOr eq = Except.error m) :
    ∃ p qc m r, Hql.convert_with_ai env kOr kAi q tn (some em) = ([Ev.ai p, Ev.oracle qc], Except.ok r) ∧
      r.conversion_error = none ∧ r.validation_works = false ∧
      r.validation_error = some ("Converted SQL validation failed: " ++ m) ∧
      env.oracle kOr qc = Except.error m := by
  unfold Hql.convert_with_ai
  dsimp only
  rw [hai _]
  dsimp only
  have hbe : (s == "") = false := by
    simp [hsne]
  rw [hbe]
  simp only [Bool.false_eq_true, if_false]
  by_cases ha : Hql.hasAsSel (Hql.sanitize s) = true
  · unfold Hql.vSubmits at hv
    rw [ha] at hv
    simp only [Bool.not_true, Bool.false_or] at hv
    obtain ⟨x, hx⟩ := Option.isSome_iff_exists.mp hv
    obtain ⟨a, b, c, g⟩ := x
    rw [if_pos ha, hx]
    try dsimp only
    obtain ⟨m, hm⟩ := hrej ("EXPLAIN " ++ stripS (rstripSemi ⟨Rx.gval g 1⟩))
    rw [hm]
    exact ⟨_, _, m, _, rfl, rfl, rfl, rfl, hm⟩
  · rw [if_neg ha]
    try dsimp only
    obtain ⟨m, hm⟩ := hrej ("EXPLAIN " ++ rstripSemi (Hql.sanitize s))
    rw [hm]
    exact ⟨_, _, m, _, rfl, rfl, rfl, rfl, hm⟩

/-- C3 counterexample: a unit that is not short-circuited (its validation
attempt really submits an EXPLAIN), whose oracle calls all reject and whose
non-empty generative response also fails validation, can terminate as
`failed` after only **2** oracle calls — not 3 — because no rewrite rule
fires on it and the rule-validation attempt is skipped entirely. -/
theorem c3_counterexample :
    Hql.submits "SELECT x FROM t" "t3" = true ∧
    (Hql.apply_auto_fixes id "SELECT x FROM t").2 = [] ∧
    (Hql.process_query envRejAll id "SELECT x FROM t" "t3").2 =
      Except.ok { table_name := "t3",
                  original_sql := "SELECT x FROM t",
                  final_sql := none, status := "failed", original_error := none,
                  conversion_notes := ["Conversion validation failed: Converted SQL validation failed: err"] } ∧
    countOr (Hql.process_query envRejAll id "SELECT x FROM t" "t3").1 = 2 ∧
    countAi (Hql.process_query envRejAll id "SELECT x FROM t" "t3").1 = 1 ∧
    (2 : Nat) ≠ 3 := by
  refine ⟨by decide, by decide, by decide, by decide, by decide, by decide⟩

/-- C3 amended: for a unit that is not short-circuited and actually submits
(original and rewritten text both pass the submission conditions), on which
at least one rewrite rule fires, and whose oracle always rejects while the
generative client returns one fixed non-empty response that sanitises to a
submittable text, processing terminates as `failed` after exactly 3 oracle
calls (original text, rule-rewritten text, sanitised generative output) and
exactly 1 generative call, and the unit's notes record the final validation
failure.  (When no rule fires, the rewritten-text attempt is skipped and
only 2 oracle calls occur — see the counterexample.) -/
theorem c3_reject_everywhere_three_calls (env : Env) (ord : List String → List String)
    (q tn s : String)
    (hsub : Hql.submits q tn = true)
    (hfx : (Hql.apply_auto_fixes ord q).2 ≠ [])
    (hsub2 : Hql.submits (Hql.apply_auto_fixes ord q).1 tn = true)
    (hrej : ∀ k eq, ∃ m, env.oracle k eq = Except.error m)
    (hai : ∀ k p, env.ai k p = Except.ok (some s))
    (hsne : s ≠ "")
    (hvs : Hql.vSubmits (Hql.sanitize s) = true) :
    ∃ ev r, Hql.process_query env ord q tn = (ev, Except.ok r) ∧
      r.status = "failed" ∧ r.final_sql = none ∧
      countOr ev = 3 ∧ countAi ev = 1 ∧
      ∃ m, r.conversion_notes =
        ["Conversion validation failed: Converted SQL validation failed: " ++ m] := by
  obtain ⟨eq0, m0, tor, htry, hw0, he0, _⟩ := Hql.try_submit_reject env 0 q tn hsub (hrej 0)
  unfold Hql.process_query
  rw [htry]
  dsimp only
  rcases happ : Hql.apply_auto_fixes ord q with ⟨f5, fx⟩
  dsimp only
  rw [hw0]
  simp only [Bool.false_eq_true, if_false]
  have hfx' : fx.isEmpty = false := by
    rw [happ] at hfx
    simpa [List.isEmpty_eq_false] using hfx
  rw [hfx']
  simp only [Bool.false_eq_true, if_false]
  rw [happ] at hsub2
  obtain ⟨eq1, m1, fr, htry2, hw1, he1, _⟩ :=
    Hql.try_submit_reject env (countOr [Ev.oracle eq0]) f5 tn hsub2 (hrej _)
  rw [htry2]
  dsimp only
  rw [hw1]
  simp only [Bool.false_eq_true, if_false]
  unfold Hql.ai_stage
  rw [he0]
  obtain ⟨p, qc, m2, cr, hconv, hce, hvw, hve, _⟩ :=
    Hql.conv_reject env (countOr ([Ev.oracle eq0] ++ [Ev.oracle eq1]))
      (countAi ([Ev.oracle eq0] ++ [Ev.oracle eq1])) q tn m0 s (hai _) hsne hvs (hrej _)
  rw [hconv]
  dsimp only
  rw [hce]
  dsimp only
  rw [hvw]
  simp only [Bool.false_eq_true, if_false]
  refine ⟨_, _, rfl, rfl, rfl, ?_, ?_, m2, ?_⟩
  · simp [countOr_append, countOr_oracle_cons, countOr_ai_cons, countOr_nil]
  · simp [countAi_append, countAi_oracle_cons, countAi_ai_cons, countAi_nil]
  · rw [hve]
    rfl

/-- Witness for the amended C3: a `STORED AS ORC` unit under an
always-rejecting oracle and a fixed generative response ends `failed` with
exactly 3 oracle calls and 1 generative call. -/
theorem c3_reject_everywhere_three_calls_witness :
    ∃ ev r, Hql.process_query envRejAll id "CREATE TABLE t STORED AS ORC" "t2" =
        (ev, Except.ok r) ∧
      r.status = "failed" ∧ r.final_sql = none ∧
      countOr ev = 3 ∧ countAi ev = 1 ∧
      ∃ m, r.conversion_notes =
        ["Conversion validation failed: Converted SQL validation failed: " ++ m] :=
  c3_reject_everywhere_three_calls envRejAll id "CREATE TABLE t STORED AS ORC" "t2"
    "SELECT 2 FROM t" (by decide) (by decide) (by decide)
    (fun k eq => ⟨"err", rfl⟩) (fun k p => rfl) (by decide) (by decide)

/-- C8 counterexample: a statement containing the substring `AS SELECT` on
which the `\bAS\s+SELECT` extraction regex finds no match (here
`ALIAS SELECT 1`, whose only `AS` occurs inside the word `ALIAS`) makes the
oracle client submit **nothing**: the attempt emits no oracle call and fails
with a null diagnostic, whereas the claim requires every statement to submit
either the extracted select portion or the whole statement. -/
theorem c8_counterexample :
    Hql.hasAsSel "ALIAS SELECT 1" = true ∧
    Rx.searchFrom Hql.pAsSelect none ("ALIAS SELECT 1" : String).data = none ∧
    (Hql.try_original_query envRejAll 0 "ALIAS SELECT 1" "t5").1 = [] ∧
    countOr (Hql.try_original_query envRejAll 0 "ALIAS SELECT 1" "t5").1 = 0 ∧
    (Hql.try_original_query envRejAll 0 "ALIAS SELECT 1" "t5").2 =
      Except.ok { table_name := "t5", original_works := false, error := none,
                  explain_output := none, needs_auto_fix := false, auto_fix_reason := none } ∧
    (Hql.try_original_query envRejAll 0 "ALIAS SELECT 1" "t5").1 ≠
      [Ev.oracle ("EXPLAIN " ++ rstripSemi "ALIAS SELECT 1")] := by
  refine ⟨by decide, rfl, by decide, by decide, by decide, by decide⟩

/-- C8 amended: outside the two HiveQL short-circuits, a validation attempt
submits exactly one EXPLAIN query — of the regex-extracted select portion
(trailing semicolons stripped, then whitespace-stripped) when the
`AS SELECT` substring test passes and the `\bAS\s+SELECT` regex matches; of
the whole statement with trailing semicolons stripped otherwise — except
that when the substring test passes but the regex does not match, nothing is
submitted and the attempt fails with a null diagnostic.  The Trino client
additionally explains bare SELECT statements whole.  Accepted verdicts carry
a plan summary built from at most the first 5 response rows. -/
theorem c8_explain_submission :
    (∀ (env : Env) (k : Nat) (q tn : String),
      Hql.is_udf_stmt q tn = false → Hql.has_clustered_by_in_ctas q = false →
      ∃ ev r, Hql.try_original_query env k q tn = (ev, Except.ok r) ∧
        ((Hql.hasAsSel q = true ∧
           ((∃ a b c g, Rx.searchFrom Hql.pAsSelect none q.data = some (a, b, c, g) ∧
              ev = [Ev.oracle ("EXPLAIN " ++ stripS (rstripSemi ⟨Rx.gval g 1⟩))]) ∨
            (Rx.searchFrom Hql.pAsSelect none q.data = none ∧ ev = [] ∧
              r.original_works = false ∧ r.error = none))) ∨
         (Hql.hasAsSel q = false ∧ ev = [Ev.oracle ("EXPLAIN " ++ rstripSemi q)])) ∧
        (r.original_works = true →
          ∃ eq rows, ev = [Ev.oracle eq] ∧ env.oracle k eq = Except.ok rows ∧
            r.explain_output = some (joinRows rows))) ∧
    (∀ (env : Env) (k : Nat) (q tn : String),
      ∃ ev r, Tri.try_original_query env k q tn = (ev, Except.ok r) ∧
        ((startsWithS (upperS (stripS q)) "SELECT" = true ∧
           ev = [Ev.oracle ("EXPLAIN " ++ rstripSemi q)]) ∨
         (startsWithS (upperS (stripS q)) "SELECT" = false ∧ Hql.hasAsSel q = true ∧
           ((∃ a b c g, Rx.searchFrom Hql.pAsSelect none q.data = some (a, b, c, g) ∧
              ev = [Ev.oracle ("EXPLAIN " ++ stripS (rstripSemi ⟨Rx.gval g 1⟩))]) ∨
            (Rx.searchFrom Hql.pAsSelect none q.data = none ∧ ev = [] ∧
              r.original_works = false ∧ r.error = none))) ∨
         (startsWithS (upperS (stripS q)) "SELECT" = false ∧ Hql.hasAsSel q = false ∧
           ev = [Ev.oracle ("EXPLAIN " ++ rstripSemi q)])) ∧
        (r.original_works = true →
          ∃ eq rows, ev = [Ev.oracle eq] ∧ env.oracle k eq = Except.ok rows ∧
            r.explain_output = some (joinRows rows))) ∧
    (∀ rows : List String, joinRows rows = ⟨Py.joinNL ((rows.take 5).map String.data)⟩) := by
  refine ⟨?_, ?_, fun rows => rfl⟩
  · intro env k q tn hu hc
    unfold Hql.try_original_query
    simp only [hu, hc, Bool.false_eq_true, if_false]
    by_cases ha : Hql.hasAsSel q = true
    · rw [if_pos ha]
      rcases hse : Rx.searchFrom Hql.pAsSelect none q.data with _ | ⟨a, b, c, g⟩
      · exact ⟨[], _, rfl, Or.inl ⟨ha, Or.inr ⟨rfl, rfl, rfl, rfl⟩⟩, fun hwk => nomatch hwk⟩
      · dsimp only
        split
        · next rows h =>
          exact ⟨_, _, rfl, Or.inl ⟨ha, Or.inl ⟨a, b, c, g, rfl, rfl⟩⟩,
            fun _ => ⟨_, rows, rfl, h, rfl⟩⟩
        · next m h =>
          exact ⟨_, _, rfl, Or.inl ⟨ha, Or.inl ⟨a, b, c, g, rfl, rfl⟩⟩,
            fun hwk => nomatch hwk⟩
    · have haf : Hql.hasAsSel q = false := by
        revert ha; cases Hql.hasAsSel q <;> simp
      rw [if_neg ha]
      try dsimp only
      split
      · next rows h =>
        exact ⟨_, _, rfl, Or.inr ⟨haf, rfl⟩, fun _ => ⟨_, rows, rfl, h, rfl⟩⟩
      · next m h =>
        exact ⟨_, _, rfl, Or.inr ⟨haf, rfl⟩, fun hwk => nomatch hwk⟩
  · intro env k q tn
    unfold Tri.try_original_query
    by_cases hsw : startsWithS (upperS (stripS q)) "SELECT" = true
    · rw [if_pos hsw]
      dsimp only
      split
      · next rows h =>
        exact ⟨_, _, rfl, Or.inl ⟨hsw, rfl⟩, fun _ => ⟨_, rows, rfl, h, rfl⟩⟩
      · next m h =>
        exact ⟨_, _, rfl, Or.inl ⟨hsw, rfl⟩, fun hwk => nomatch hwk⟩
    · have hswf : startsWithS (upperS (stripS q)) "SELECT" = false := by
        revert hsw; cases startsWithS (upperS (stripS q)) "SELECT" <;> simp
      rw [if_neg hsw]
      by_cases ha : Hql.hasAsSel q = true
      · rw [if_pos ha]
        rcases hse : Rx.searchFrom Hql.pAsSelect none q.data with _ | ⟨a, b, c, g⟩
        · exact ⟨[], _, rfl, Or.inr (Or.inl ⟨hswf, ha, Or.inr ⟨rfl, rfl, rfl, rfl⟩⟩),
            fun hwk => nomatch hwk⟩
        · dsimp only
          split
          · next rows h =>
            exact ⟨_, _, rfl, Or.inr (Or.inl ⟨hswf, ha, Or.inl ⟨a, b, c, g, rfl, rfl⟩⟩),
              fun _ => ⟨_, rows, rfl, h, rfl⟩⟩
          · next m h =>
            exact ⟨_, _, rfl, Or.inr (Or.inl ⟨hswf, ha, Or.inl ⟨a, b, c, g, rfl, rfl⟩⟩),
              fun hwk => nomatch hwk⟩
      · have haf : Hql.hasAsSel q = false := by
          revert ha; cases Hql.hasAsSel q <;> simp
        rw [if_neg ha]
        dsimp only
        split
        · next rows h =>
          exact ⟨_, _, rfl, Or.inr (Or.inr ⟨hswf, haf, rfl⟩), fun _ => ⟨_, rows, rfl, h, rfl⟩⟩
        · next m h =>
          exact ⟨_, _, rfl, Or.inr (Or.inr ⟨hswf, haf, rfl⟩), fun hwk => nomatch hwk⟩

theorem status_ow_ne_ai : ("original_works" : String) ≠ "ai_converted" := by decide

theorem status_af_ne_ai : ("auto_fixed" : String) ≠ "ai_converted" := by decide

theorem status_un_ne_ai : ("unchanged" : String) ≠ "ai_converted" := by decide

theorem status_failed_ne_ai : ("failed" : String) ≠ "ai_converted" := by decide

/-- C2 counterexample: in the Trino pipeline the deterministic rewrite runs
before any validation, so when a rule fires the oracle is never called on the
unmodified unit text.  With an oracle that rejects the first submission and
accepts afterwards, `SELECT cardinality(x) FROM t` ends `ai_converted` while
the first (and only pre-AI) oracle call is on the rewritten text
`SELECT size(x) FROM t`; no event ever submits the unmodified text. -/
theorem c2_counterexample :
    (Tri.process_query envT1 "SELECT cardinality(x) FROM t" "t6").2 =
      Except.ok { table_name := "t6", original_sql := "SELECT cardinality(x) FROM t",
                  final_sql := some "SELECT 1", status := "ai_converted",
                  conversion_notes := ["Auto-fixes failed - successfully converted with AI_QUERY"] } ∧
    (Tri.process_query envT1 "SELECT cardinality(x) FROM t" "t6").1.head? =
      some (Ev.oracle "EXPLAIN SELECT size(x) FROM t") ∧
    Ev.oracle "EXPLAIN SELECT cardinality(x) FROM t" ∉
      (Tri.process_query envT1 "SELECT cardinality(x) FROM t" "t6").1 ∧
    countOr (Tri.process_query envT1 "SELECT cardinality(x) FROM t" "t6").1 = 2 ∧
    countAi (Tri.process_query envT1 "SELECT cardinality(x) FROM t" "t6").1 = 1 := by
  refine ⟨by decide, by decide, by decide, by decide, by decide⟩

/-- C2 amended: whenever either pipeline ends `ai_converted`, the generative
client was invoked exactly once, only after every preceding external call —
all of them oracle calls that were rejected — and the AI output's validation
was accepted; but the pre-AI attempts are zero, one or two oracle calls, and
in the Trino pipeline the single pre-AI attempt validates the rule-rewritten
text, never the unmodified unit text (and in both pipelines the
create-as-select extraction can skip the oracle entirely). -/
theorem c2_generative_last_resort :
    (∀ (env : Env) (ord : List String → List String) (q tn : String),
      ∃ ev r, Hql.process_query env ord q tn = (ev, Except.ok r) ∧
        (r.status = "ai_converted" →
          ∃ pre p qc rows, ev = pre ++ [Ev.ai p, Ev.oracle qc] ∧
            env.oracle (countOr pre) qc = Except.ok rows ∧
            countAi pre = 0 ∧ countAi ev = 1 ∧
            (pre = [] ∨
             (∃ q1 m1, pre = [Ev.oracle q1] ∧ env.oracle 0 q1 = Except.error m1) ∨
             (∃ q1 m1 q2 m2, pre = [Ev.oracle q1, Ev.oracle q2] ∧
                env.oracle 0 q1 = Except.error m1 ∧ env.oracle 1 q2 = Except.error m2)))) ∧
    (∀ (env : Env) (q tn : String),
      ∃ ev r, Tri.process_query env q tn = (ev, Except.ok r) ∧
        (r.status = "ai_converted" →
          ∃ pre p qc rows, ev = pre ++ [Ev.ai p, Ev.oracle qc] ∧
            env.oracle (countOr pre) qc = Except.ok rows ∧
            countAi pre = 0 ∧ countAi ev = 1 ∧
            (pre = [] ∨
             (∃ q1 m1, pre = [Ev.oracle q1] ∧ env.oracle 0 q1 = Except.error m1)))) := by
  constructor
  · intro env ord q tn
    obtain ⟨ev1, tor, htry, hsh⟩ := Hql.try_oq_spec env 0 q tn
    unfold Hql.process_query
    rw [htry]
    dsimp only
    rcases happ : Hql.apply_auto_fixes ord q with ⟨f5, fx⟩
    dsimp only
    by_cases hw : tor.original_works = true
    · rw [if_pos hw]
      by_cases hfx : fx.isEmpty
      · rw [if_pos hfx]
        exact ⟨_, _, rfl, fun h => absurd h status_ow_ne_ai⟩
      · rw [if_neg hfx]
        exact ⟨_, _, rfl, fun h => absurd h status_af_ne_ai⟩
    · have hwf : tor.original_works = false := by
        revert hw; cases tor.original_works <;> simp
      have hsh1 : ev1 = [] ∨
          ∃ q1 m1, ev1 = [Ev.oracle q1] ∧ env.oracle 0 q1 = Except.error m1 := by
        rcases hsh with ⟨he, hwt | ⟨_, _⟩⟩ | ⟨q', he, ⟨rows, _, hwt, _⟩ | ⟨m, hm, _, _⟩⟩
        · simp [hwf] at hwt
        · exact Or.inl he
        · simp [hwf] at hwt
        · exact Or.inr ⟨q', m, he, hm⟩
      rw [if_neg hw]
      by_cases hfx : fx.isEmpty
      · rw [if_pos hfx]
        obtain ⟨ev3, r, hstage, hcnt, hsh3⟩ :=
          Hql.ai_stage_spec env
            { table_name := tn, original_sql := q, final_sql := none, status := "unknown",
              original_error := none, conversion_notes := [] } q tn tor.error ev1 rfl
        refine ⟨_, _, hstage, ?_⟩
        intro hai
        rcases hsh3 with ⟨hst, _⟩ | ⟨_, _, p, qc, rows, hev3, hor⟩
        · exact absurd (hst.symm.trans hai) status_failed_ne_ai
        · rcases hsh1 with rfl | ⟨q1, m1, rfl, hm1⟩
          · exact ⟨[], p, qc, rows, by simp [hev3], hor, rfl,
              by simp [hev3, countAi_append, countAi_ai_cons, countAi_oracle_cons, countAi_nil],
              Or.inl rfl⟩
          · exact ⟨[Ev.oracle q1], p, qc, rows, by simp [hev3], hor,
              by simp [countAi_oracle_cons, countAi_nil],
              by simp [hev3, countAi_append, countAi_ai_cons, countAi_oracle_cons, countAi_nil],
              Or.inr (Or.inl ⟨q1, m1, rfl, hm1⟩)⟩
      · rw [if_neg hfx]
        obtain ⟨ev2, fr, htry2, hsh2⟩ := Hql.try_oq_spec env (countOr ev1) f5 tn
        rw [htry2]
        dsimp only
        by_cases hw2 : fr.original_works = true
        · rw [if_pos hw2]
          exact ⟨_, _, rfl, fun h => absurd h status_af_ne_ai⟩
        · have hw2f : fr.original_works = false := by
            revert hw2; cases fr.original_works <;> simp
          have hsh2' : ev2 = [] ∨
              ∃ q2 m2, ev2 = [Ev.oracle q2] ∧ env.oracle (countOr ev1) q2 = Except.error m2 := by
            rcases hsh2 with ⟨he, hwt | ⟨_, _⟩⟩ | ⟨q', he, ⟨rows, _, hwt, _⟩ | ⟨m, hm, _, _⟩⟩
            · simp [hw2f] at hwt
            · exact Or.inl he
            · simp [hw2f] at hwt
            · exact Or.inr ⟨q', m, he, hm⟩
          rw [if_neg hw2]
          obtain ⟨ev3, r, hstage, hcnt, hsh3⟩ :=
            Hql.ai_stage_spec env
              { table_name := tn, original_sql := q, final_sql := none, status := "unknown",
                original_error := none, conversion_notes := [] } q tn tor.error (ev1 ++ ev2) rfl
          refine ⟨_, _, hstage, ?_⟩
          intro hai
          rcases hsh3 with ⟨hst, _⟩ | ⟨_, _, p, qc, rows, hev3, hor⟩
          · exact absurd (hst.symm.trans hai) status_failed_ne_ai
          · rcases hsh1 with rfl | ⟨q1, m1, rfl, hm1⟩ <;>
              rcases hsh2' with rfl | ⟨q2, m2, rfl, hm2⟩
            · exact ⟨[], p, qc, rows, by simp [hev3], hor, rfl,
                by simp [hev3, countAi_append, countAi_ai_cons, countAi_oracle_cons, countAi_nil],
                Or.inl rfl⟩
            · exact ⟨[Ev.oracle q2], p, qc, rows, by simp [hev3], hor,
                by simp [countAi_oracle_cons, countAi_nil],
                by simp [hev3, countAi_append, countAi_ai_cons, countAi_oracle_cons, countAi_nil],
                Or.inr (Or.inl ⟨q2, m2, rfl, hm2⟩)⟩
            · exact ⟨[Ev.oracle q1], p, qc, rows, by simp [hev3], hor,
                by simp [countAi_oracle_cons, countAi_nil],
                by simp [hev3, countAi_append, countAi_ai_cons, countAi_oracle_cons, countAi_nil],
                Or.inr (Or.inl ⟨q1, m1, rfl, hm1⟩)⟩
            · exact ⟨[Ev.oracle q1, Ev.oracle q2], p, qc, rows, by simp [hev3], hor,
                by simp [countAi_oracle_cons, countAi_nil],
                by simp [hev3, countAi_append, countAi_ai_cons, countAi_oracle_cons, countAi_nil],
                Or.inr (Or.inr ⟨q1, m1, q2, m2, rfl, hm1, hm2⟩)⟩
  · intro env q tn
    unfold Tri.process_query
    rcases happ : Tri.apply_trino_to_databricks_fixes q with ⟨f5, fx⟩
    dsimp only
    obtain ⟨ev1, vr, htry, hsh⟩ := Tri.try_oq_spec_t env 0 f5 tn
    rw [htry]
    dsimp only
    by_cases hw : vr.original_works = true
    · rw [if_pos hw]
      by_cases hfx : fx.isEmpty = true
      · simp only [if_pos hfx]
        exact ⟨_, _, rfl, fun h => absurd h status_un_ne_ai⟩
      · simp only [if_neg hfx]
        exact ⟨_, _, rfl, fun h => absurd h status_af_ne_ai⟩
    · have hwf : vr.original_works = false := by
        revert hw; cases vr.original_works <;> simp
      have hsh1 : ev1 = [] ∨
          ∃ q1 m1, ev1 = [Ev.oracle q1] ∧ env.oracle 0 q1 = Except.error m1 := by
        rcases hsh with ⟨he, _, _⟩ | ⟨q', he, ⟨rows, _, hwt, _⟩ | ⟨m, hm, _, _⟩⟩
        · exact Or.inl he
        · simp [hwf] at hwt
        · exact Or.inr ⟨q', m, he, hm⟩
      rw [if_neg hw]
      obtain ⟨ev3, r, hstage, hcnt, hsh3⟩ :=
        Tri.ai_stage_spec_t env
          { table_name := tn, original_sql := q, final_sql := none, status := "unknown",
            conversion_notes := [] } q tn vr.error ev1 rfl
      refine ⟨_, _, hstage, ?_⟩
      intro hai
      rcases hsh3 with ⟨hst, _⟩ | ⟨_, _, p, qc, rows, hev3, hor⟩
      · exact absurd (hst.symm.trans hai) status_failed_ne_ai
      · rcases hsh1 with rfl | ⟨q1, m1, rfl, hm1⟩
        · exact ⟨[], p, qc, rows, by simp [hev3], hor, rfl,
            by simp [hev3, countAi_append, countAi_ai_cons, countAi_oracle_cons, countAi_nil],
            Or.inl rfl⟩
        · exact ⟨[Ev.oracle q1], p, qc, rows, by simp [hev3], hor,
            by simp [countAi_oracle_cons, countAi_nil],
            by simp [hev3, countAi_append, countAi_ai_cons, countAi_oracle_cons, countAi_nil],
            Or.inr ⟨q1, m1, rfl, hm1⟩⟩
